import Mathlib

/-!
# Verification of the distributed-training coordinator core

A shallow embedding, in Lean 4, of the Python modules under
`src/python-ml-service/src/core/` of the Distributed-Training repository:

* `gradient_aggregator.py`  — round state, gradient intake, ready predicate;
* `network_monitor.py`      — per-worker connection profiles, quality score,
                              band classification with hysteresis;
* `node_selector.py`        — contribution tracking, quarantine/probation,
                              per-round node selection strategies;
* `adaptive_orchestrator.py`— the per-round adaptation decision;
* `contribution_calculator.py` — per-worker session metrics and derived scores;
* `reward_calculator.py`    — reward-distribution strategies and validation.

Modelling conventions:

* Python `float` values are modelled as exact rationals (`ℚ`); decimal
  literals such as `0.3` or `0.067` are taken at their decimal value.
  Gradient array entries, which can be NaN or infinite, are modelled by the
  dedicated type `PyFloat`.
* Python `int(x)` on a non-integer value truncates toward zero; this is
  `pyInt` below.
* Python dicts are modelled as insertion-ordered association lists
  (`List (String × _)`) with `alistGet` / `alistSet`.
* `np.sqrt`, which produces irrational values, is abstracted as an explicit
  function parameter `sqrtFn : ℚ → ℚ` wherever the source calls it; no
  theorem below depends on its values.
* Python `list.sort(key=..., reverse=True)` (a stable descending sort) is
  modelled by the structurally recursive stable insertion sort `sortDescBy`.
-/

/-- Truncation toward zero: the behaviour of Python's `int(...)` applied to a
real value, which here is modelled as a rational. -/
def pyInt (q : ℚ) : ℤ := q.num.tdiv q.den




/-- Lookup in an insertion-ordered association list (Python `d.get(k)` /
`d[k]` guarded by `k in d`). -/
def alistGet {α : Type} : List (String × α) → String → Option α
  | [], _ => none
  | p :: l, k => if p.1 == k then some p.2 else alistGet l k

/-- Write-through update of an association list (Python `d[k] = v`): replaces
the binding in place when the key is present, otherwise appends at the end,
matching dict insertion order. -/
def alistSet {α : Type} : List (String × α) → String → α → List (String × α)
  | [], k, v => [(k, v)]
  | p :: l, k, v => if p.1 == k then (k, v) :: l else p :: alistSet l k v

/-- Deletion from an association list (Python `del d[k]`). -/
def alistRemove {α : Type} (l : List (String × α)) (k : String) :
    List (String × α) :=
  l.filter (fun p => !(p.1 == k))



/-- Stable insertion of `x` into a list already sorted descending by `key`:
`x` goes after every element whose key is ≥ its own, which preserves the
original relative order of equal keys (Python's stable sort). -/
def insertDescBy {α : Type} (key : α → ℚ) (x : α) : List α → List α
  | [] => [x]
  | y :: ys => if key y ≥ key x then y :: insertDescBy key x ys else x :: y :: ys

/-- Stable sort, descending by `key`: the model of Python's
`sorted(..., key=..., reverse=True)` / `list.sort(key=..., reverse=True)`. -/
def sortDescBy {α : Type} (key : α → ℚ) (l : List α) : List α :=
  l.foldl (fun acc x => insertDescBy key x acc) []



/-! ## Gradient aggregator (`gradient_aggregator.py`) -/

/-- A Python float as it appears in a gradient array: finite (modelled
exactly as a rational), NaN, or a signed infinity. -/
inductive PyFloat where
  | finite (val : ℚ)
  | nan
  | inf
  | ninf
deriving DecidableEq, Repr

/-- `np.isnan` on a single entry. -/
def PyFloat.isNaN : PyFloat → Bool
  | .nan => true
  | _ => false

/-- `np.isinf` on a single entry. -/
def PyFloat.isInf : PyFloat → Bool
  | .inf => true
  | .ninf => true
  | _ => false

/-- Multiplication of an entry by a finite scalar (used by gradient
clipping, which in the source is applied only after NaN/Inf validation). -/
def PyFloat.scale (c : ℚ) : PyFloat → PyFloat
  | .finite v => .finite (c * v)
  | .nan => .nan
  | .inf => if 0 < c then .inf else if c < 0 then .ninf else .nan
  | .ninf => if 0 < c then .ninf else if c < 0 then .inf else .nan

/-- A numpy array: a shape together with its flattened data. -/
structure NDArray where
  shape : List Nat
  data : List PyFloat
deriving DecidableEq, Repr

/-- `np.isnan(a).any()`. -/
def NDArray.hasNaN (a : NDArray) : Bool := a.data.any PyFloat.isNaN

/-- `np.isinf(a).any()`. -/
def NDArray.hasInf (a : NDArray) : Bool := a.data.any PyFloat.isInf

/-- Sum of squares of the finite entries of an array (NaN/Inf entries, which
validation has already excluded wherever this is used, contribute 0). -/
def NDArray.sumSq (a : NDArray) : ℚ :=
  (a.data.map (fun x => match x with | .finite v => v * v | _ => 0)).sum

/-- A gradient submission: mapping from parameter name to array
(`Dict[str, np.ndarray]`). -/
abbrev Grads := List (String × NDArray)

/-- Submission metadata (`Dict[str, Any]`; only numeric entries such as
`data_samples` matter to the embedded code). -/
abbrev GradMeta := List (String × ℚ)

/-- `GradientAggregator._validate_gradients`: rejects (returns false) iff any
array of the submission contains a NaN or an Inf entry.  The source also
computes `np.linalg.norm` to log a warning on very large gradients, which has
no effect on the result and is therefore not modelled. -/
def validateGradients (gradients : Grads) : Bool :=
  gradients.all (fun p => !p.2.hasNaN && !p.2.hasInf)

/-- Global sum of squares over a whole submission. -/
def gradsSumSq (g : Grads) : ℚ := (g.map (fun p => p.2.sumSq)).sum

/-- `GradientAggregator._clip_gradients`: clip by global L2 norm.
`sqrtFn` abstracts `np.sqrt`. -/
def clipGradients (sqrtFn : ℚ → ℚ) (clipValue : ℚ) (g : Grads) : Grads :=
  let totalNorm := sqrtFn (gradsSumSq g)
  if totalNorm > clipValue then
    let clipCoef := clipValue / (totalNorm + 1/1000000)
    g.map (fun p => (p.1, ⟨p.2.shape, p.2.data.map (PyFloat.scale clipCoef)⟩))
  else g

/-- The per-round state of `GradientAggregator` (fields that participate in
intake and the ready predicate; timestamps are rationals, "seconds"). -/
structure AggState where
  timeoutSeconds : ℚ := 30
  minNodesPercentage : ℚ := 4/5
  gradientClipValue : Option ℚ := none
  currentRound : Nat := 0
  expectedNodes : List String := []
  receivedGradients : List (String × Grads) := []
  gradientMetadata : List (String × GradMeta) := []
  roundStartTime : Option ℚ := none
  rejectedGradients : Nat := 0
deriving Repr

/-- `GradientAggregator.start_round`. -/
def startRound (s : AggState) (roundNumber : Nat) (expectedNodeIds : List String)
    (now : ℚ) : AggState :=
  { s with
    currentRound := roundNumber
    expectedNodes := expectedNodeIds
    receivedGradients := []
    gradientMetadata := []
    roundStartTime := some now }

/-- `GradientAggregator.receive_gradient`.  Returns the accept/reject flag
together with the updated state.  The source wraps the body in
`try/except` returning `False`; none of the modelled operations can raise. -/
def receiveGradient (sqrtFn : ℚ → ℚ) (s : AggState) (nodeId : String)
    (gradients : Grads) (metadata : Option GradMeta) : Bool × AggState :=
  if !(s.expectedNodes.contains nodeId) then
    (false, { s with rejectedGradients := s.rejectedGradients + 1 })
  else if (alistGet s.receivedGradients nodeId).isSome then
    (false, { s with rejectedGradients := s.rejectedGradients + 1 })
  else if !(validateGradients gradients) then
    (false, { s with rejectedGradients := s.rejectedGradients + 1 })
  else
    let gradients := match s.gradientClipValue with
      | some c => clipGradients sqrtFn c gradients
      | none => gradients
    let s := { s with
      receivedGradients := alistSet s.receivedGradients nodeId gradients }
    let s := match metadata with
      | some m =>
          -- Python `if metadata:`: an empty dict is falsy and is not stored
          if m.isEmpty then s
          else { s with gradientMetadata := alistSet s.gradientMetadata nodeId m }
      | none => s
    (true, s)

/-- The reasons returned by `should_aggregate` (the source formats them as
strings; the embedded value carries the same information). -/
inductive AggReason where
  | roundNotStarted
  | allNodesResponded
  | timeoutInsufficientNodes (received : Nat) (minNodes : ℤ)
  | waitingForMoreNodes (received : Nat) (minNodes : ℤ)
  | timeoutReached (received expected : Nat)
  | waiting (received expected : Nat) (elapsed : ℚ)
deriving DecidableEq, Repr

/-- `GradientAggregator.should_aggregate`, evaluated at wall-clock time
`now`.  The minimum-node threshold is `int(num_expected *
min_nodes_percentage)` — truncation, not a ceiling. -/
def shouldAggregate (s : AggState) (now : ℚ) : Bool × AggReason :=
  match s.roundStartTime with
  | none => (false, .roundNotStarted)
  | some startTime =>
    let numReceived := s.receivedGradients.length
    let numExpected := s.expectedNodes.length
    if numReceived = numExpected then (true, .allNodesResponded)
    else
      let minNodes : ℤ := pyInt ((numExpected : ℚ) * s.minNodesPercentage)
      if (numReceived : ℤ) < minNodes then
        let elapsed := now - startTime
        if elapsed ≥ s.timeoutSeconds then
          (false, .timeoutInsufficientNodes numReceived minNodes)
        else (false, .waitingForMoreNodes numReceived minNodes)
      else
        let elapsed := now - startTime
        if elapsed ≥ s.timeoutSeconds then
          (true, .timeoutReached numReceived numExpected)
        else (false, .waiting numReceived numExpected elapsed)

/-! ## Network quality monitor (`network_monitor.py`) -/

/-- `ConnectionQuality`. -/
inductive ConnectionQuality where
  | excellent
  | good
  | fair
  | poor
  | critical
  | offline
deriving DecidableEq, Repr

/-- Index of a band in the `quality_order` list used by
`get_nodes_by_quality` (worst first). -/
def qualityIndex : ConnectionQuality → Nat
  | .offline => 0
  | .critical => 1
  | .poor => 2
  | .fair => 3
  | .good => 4
  | .excellent => 5

/-- `deque(maxlen=n).append`: append to the right, dropping from the left
when full. -/
def dequeAppend {α : Type} (maxlen : Nat) (xs : List α) (x : α) : List α :=
  let ys := xs ++ [x]
  if maxlen < ys.length then ys.drop (ys.length - maxlen) else ys

/-- `ConnectionProfile`: per-worker connection state.  Timestamps are
rationals in seconds.  `qualityChangeThreshold` is set to 3 in `__init__`. -/
structure ConnectionProfile where
  nodeId : String := ""
  historySize : Nat := 50
  latencyHistory : List ℚ := []
  packetLossEvents : List Bool := []
  responseTimes : List ℚ := []
  totalMessagesSent : Nat := 0
  totalMessagesReceived : Nat := 0
  totalFailures : Nat := 0
  consecutiveFailures : Nat := 0
  currentQuality : ConnectionQuality := .good
  previousQuality : ConnectionQuality := .good
  qualityChanges : Nat := 0
  lastUpdate : ℚ := 0
  lastSuccessfulCommunication : ℚ := 0
  qualityChangeThreshold : Nat := 3
  pendingQualityChange : Option ConnectionQuality := none
  pendingChangeCount : Nat := 0
deriving Repr

/-- `ConnectionProfile.record_communication` at wall-clock time `now`. -/
def recordCommunication (p : ConnectionProfile) (latencyMs : ℚ) (success : Bool)
    (responseTimeMs : Option ℚ) (now : ℚ) : ConnectionProfile :=
  let p := { p with
    latencyHistory := dequeAppend p.historySize p.latencyHistory latencyMs
    packetLossEvents := dequeAppend p.historySize p.packetLossEvents (!success) }
  let p := match responseTimeMs with
    | some rt => { p with responseTimes := dequeAppend p.historySize p.responseTimes rt }
    | none => p
  let p := { p with totalMessagesSent := p.totalMessagesSent + 1 }
  let p :=
    if success then
      { p with
        totalMessagesReceived := p.totalMessagesReceived + 1
        consecutiveFailures := 0
        lastSuccessfulCommunication := now }
    else
      { p with
        totalFailures := p.totalFailures + 1
        consecutiveFailures := p.consecutiveFailures + 1 }
  { p with lastUpdate := now }

/-- `ConnectionProfile.get_current_latency_ms`: mean of the latency history,
0 when empty. -/
def getCurrentLatencyMs (p : ConnectionProfile) : ℚ :=
  if p.latencyHistory.isEmpty then 0
  else p.latencyHistory.sum / p.latencyHistory.length

/-- `ConnectionProfile.get_packet_loss_rate`: mean of the loss indicators,
0 when empty. -/
def getPacketLossRate (p : ConnectionProfile) : ℚ :=
  if p.packetLossEvents.isEmpty then 0
  else ((p.packetLossEvents.filter id).length : ℚ) / p.packetLossEvents.length

/-- `ConnectionProfile.get_reliability_score`: success rate over cumulative
totals, 1 when nothing was sent. -/
def getReliabilityScore (p : ConnectionProfile) : ℚ :=
  if p.totalMessagesSent = 0 then 1
  else (p.totalMessagesReceived : ℚ) / p.totalMessagesSent

/-- `ConnectionProfile.calculate_quality_score` (0–100): neutral 50 until
there are at least 3 latency samples; otherwise the clamped sum of a
two-slope latency component, a packet-loss component and a reliability
component.  The decimal literals `0.3` and `0.067` are `3/10` and
`67/1000`. -/
def calculateQualityScore (p : ConnectionProfile) : ℚ :=
  if p.latencyHistory.length < 3 then 50
  else
    let avgLatency := getCurrentLatencyMs p
    let latencyScore : ℚ :=
      if avgLatency < 50 then 40
      else if avgLatency < 150 then 40 - (avgLatency - 50) * (3/10)
      else if avgLatency < 300 then 10 - (avgLatency - 150) * (67/1000)
      else 0
    let packetLoss := getPacketLossRate p
    let packetLossScore := max 0 (30 * (1 - packetLoss * 10))
    let reliability := getReliabilityScore p
    let reliabilityScore := reliability * 30
    let totalScore := latencyScore + packetLossScore + reliabilityScore
    max 0 (min 100 totalScore)

/-- The band proposed by `update_quality_classification` before hysteresis:
score thresholds 80/60/40/20, overridden to `offline` when the last
successful communication is more than 60 s old. -/
def classifyQuality (p : ConnectionProfile) (now : ℚ) : ConnectionQuality :=
  let score := calculateQualityScore p
  let newQuality : ConnectionQuality :=
    if score ≥ 80 then .excellent
    else if score ≥ 60 then .good
    else if score ≥ 40 then .fair
    else if score ≥ 20 then .poor
    else .critical
  if now - p.lastSuccessfulCommunication > 60 then .offline else newQuality

/-- The hysteresis portion of `update_quality_classification` (lines
187–215): given the proposed band, either resets the pending streak, extends
it, or applies the change once the streak reaches
`quality_change_threshold`.  Returns (quality changed?, updated profile). -/
def applyHysteresis (p : ConnectionProfile) (newQuality : ConnectionQuality) :
    Bool × ConnectionProfile :=
  if newQuality = p.currentQuality then
    (false, { p with pendingQualityChange := none, pendingChangeCount := 0 })
  else
    let p' :=
      if p.pendingQualityChange = some newQuality then
        { p with pendingChangeCount := p.pendingChangeCount + 1 }
      else
        { p with pendingQualityChange := some newQuality, pendingChangeCount := 1 }
    if p'.pendingChangeCount ≥ p.qualityChangeThreshold then
      (true, { p' with
        previousQuality := p.currentQuality
        currentQuality := newQuality
        qualityChanges := p.qualityChanges + 1
        pendingQualityChange := none
        pendingChangeCount := 0 })
    else (false, p')

/-- `ConnectionProfile.update_quality_classification`: classification
followed by hysteresis. -/
def updateQualityClassification (p : ConnectionProfile) (now : ℚ) :
    Bool × ConnectionProfile :=
  applyHysteresis p (classifyQuality p now)

/-- A sequence of hysteresis evaluations with the given classifier
proposals. -/
def runHysteresis (p : ConnectionProfile) (proposals : List ConnectionQuality) :
    ConnectionProfile :=
  proposals.foldl (fun q prop => (applyHysteresis q prop).2) p

/-- `NetworkQualityMonitor.get_nodes_by_quality` over the monitor's profile
map, with optional inclusive band bounds. -/
def getNodesByQuality (profiles : List (String × ConnectionProfile))
    (minQuality maxQuality : Option ConnectionQuality) : List String :=
  (profiles.filter (fun pr =>
    (match minQuality with
     | some q => decide (qualityIndex q ≤ qualityIndex pr.2.currentQuality)
     | none => true) &&
    (match maxQuality with
     | some q => decide (qualityIndex pr.2.currentQuality ≤ qualityIndex q)
     | none => true))).map Prod.fst

/-- `NetworkQualityMonitor.get_problematic_nodes`: nodes at band `poor` or
worse. -/
def getProblematicNodes (profiles : List (String × ConnectionProfile)) :
    List String :=
  getNodesByQuality profiles none (some .poor)

/-! ## Dynamic node selector (`node_selector.py`) -/

/-- `NodeState`. -/
inductive NodeState where
  | active
  | excluded
  | quarantined
  | probation
deriving DecidableEq, Repr

/-- `SelectionStrategy`. -/
inductive SelectionStrategy where
  | allAvailable
  | qualityThreshold
  | topN
  | adaptiveThreshold
  | contributionBased
deriving DecidableEq, Repr

/-- One entry of `DynamicNodeSelector.node_contributions`. -/
structure ContribRecord where
  computeTime : ℚ := 0
  waitingTime : ℚ := 0
  successfulContributions : Nat := 0
  failedContributions : Nat := 0
  totalContributionScore : ℚ := 0
deriving DecidableEq, Repr

/-- The state of `DynamicNodeSelector`.  History entries keep only the
`selected_nodes` copy of the source's per-selection dict (its other fields
are derived lengths and a timestamp and are read by nothing modelled
here). -/
structure SelectorState where
  strategy : SelectionStrategy := .adaptiveThreshold
  minQualityScore : ℚ := 30
  maxSelectedNodes : Option Nat := none
  enableQuarantine : Bool := true
  quarantineThreshold : Nat := 5
  quarantineDuration : ℚ := 300
  probationSteps : Nat := 3
  nodeStates : List (String × NodeState) := []
  nodeScores : List (String × ℚ) := []
  nodeContributions : List (String × ContribRecord) := []
  quarantinedNodes : List (String × ℚ) := []
  probationProgress : List (String × Nat) := []
  selectionHistory : List (List String) := []
  maxHistory : Nat := 100
  nodeSelectionCounts : List (String × Nat) := []
  nodeExclusionCounts : List (String × Nat) := []
  totalSelections : Nat := 0
deriving Repr

/-- `DynamicNodeSelector.register_node`. -/
def registerNode (s : SelectorState) (nodeId : String) : SelectorState :=
  { s with
    nodeStates := alistSet s.nodeStates nodeId .active
    nodeScores := alistSet s.nodeScores nodeId 50
    nodeContributions := alistSet s.nodeContributions nodeId {}
    nodeSelectionCounts := alistSet s.nodeSelectionCounts nodeId 0
    nodeExclusionCounts := alistSet s.nodeExclusionCounts nodeId 0 }

/-- `DynamicNodeSelector._calculate_contribution_score`: efficiency
(0–50) from cumulative compute vs waiting time plus reliability (0–50)
from the success rate (neutral 25 with no attempts); stores the score in
`node_scores` and in the contribution record. -/
def calculateContributionScore (s : SelectorState) (nodeId : String) :
    SelectorState :=
  let contrib := (alistGet s.nodeContributions nodeId).getD {}
  let totalTime := contrib.computeTime + contrib.waitingTime
  let efficiency : ℚ :=
    if 0 < totalTime then contrib.computeTime / totalTime * 50 else 0
  let totalAttempts :=
    contrib.successfulContributions + contrib.failedContributions
  let reliability : ℚ :=
    if 0 < totalAttempts then
      (contrib.successfulContributions : ℚ) / totalAttempts * 50
    else 25
  let score := efficiency + reliability
  { s with
    nodeScores := alistSet s.nodeScores nodeId score
    nodeContributions := alistSet s.nodeContributions nodeId
      { contrib with totalContributionScore := score } }

/-- `DynamicNodeSelector._quarantine_node`: sets the expiry to
`now + quarantine_duration` and the state to quarantined. -/
def quarantineNode (s : SelectorState) (nodeId : String) (now : ℚ) :
    SelectorState :=
  { s with
    quarantinedNodes := alistSet s.quarantinedNodes nodeId
      (now + s.quarantineDuration)
    nodeStates := alistSet s.nodeStates nodeId .quarantined }

/-- `DynamicNodeSelector.record_contribution` at wall-clock time `now`:
accumulates times, updates success/failure tallies, handles probation exit
on success, triggers quarantine on failure when the cumulative totals reach
`quarantine_threshold` with failure fraction above `0.7`, and finally
recomputes the contribution score. -/
def recordContribution (s : SelectorState) (nodeId : String)
    (computeTime waitingTime : ℚ) (success : Bool) (now : ℚ) : SelectorState :=
  let s := if (alistGet s.nodeContributions nodeId).isSome then s
           else registerNode s nodeId
  let contrib := (alistGet s.nodeContributions nodeId).getD {}
  let contrib := { contrib with
    computeTime := contrib.computeTime + computeTime
    waitingTime := contrib.waitingTime + waitingTime }
  let s :=
    if success then
      let contrib := { contrib with
        successfulContributions := contrib.successfulContributions + 1 }
      let s := { s with
        nodeContributions := alistSet s.nodeContributions nodeId contrib }
      match alistGet s.probationProgress nodeId with
      | some progress =>
          if s.probationSteps ≤ progress + 1 then
            { s with
              nodeStates := alistSet s.nodeStates nodeId .active
              probationProgress := alistRemove s.probationProgress nodeId }
          else
            { s with
              probationProgress := alistSet s.probationProgress nodeId (progress + 1) }
      | none => s
    else
      let contrib := { contrib with
        failedContributions := contrib.failedContributions + 1 }
      let s := { s with
        nodeContributions := alistSet s.nodeContributions nodeId contrib }
      if s.enableQuarantine then
        let totalRecent :=
          contrib.successfulContributions + contrib.failedContributions
        if s.quarantineThreshold ≤ totalRecent then
          let failureRate : ℚ := (contrib.failedContributions : ℚ) / totalRecent
          if failureRate > 7/10 then quarantineNode s nodeId now else s
        else s
      else s
  calculateContributionScore s nodeId

/-- The release step of `_check_quarantine_expiry` for one node. -/
def releaseNode (s : SelectorState) (nodeId : String) : SelectorState :=
  { s with
    quarantinedNodes := alistRemove s.quarantinedNodes nodeId
    nodeStates := alistSet s.nodeStates nodeId .probation
    probationProgress := alistSet s.probationProgress nodeId 0 }

/-- `DynamicNodeSelector._check_quarantine_expiry`: every quarantined node
whose expiry has passed moves to probation. -/
def checkQuarantineExpiry (s : SelectorState) (now : ℚ) : SelectorState :=
  let nodesToRelease := (s.quarantinedNodes.filter (fun p => now ≥ p.2)).map Prod.fst
  nodesToRelease.foldl releaseNode s

/-- `DynamicNodeSelector._select_by_quality_threshold`: include iff the
monitor quality score is at least `min_quality_score`; nodes without a
profile are included by default. -/
def selectByQualityThreshold (monitor : List (String × ConnectionProfile))
    (s : SelectorState) (availableNodes : List String) : List String :=
  availableNodes.filter (fun n =>
    match alistGet monitor n with
    | none => true
    | some p => decide (calculateQualityScore p ≥ s.minQualityScore))

/-- `DynamicNodeSelector._select_top_n`: rank by `0.6·quality +
0.4·contribution` (defaults 50 where data is missing), stable-descending,
take the cap (Python `self.max_selected_nodes or len(available_nodes)`
treats a cap of 0 like None). -/
def selectTopN (monitor : List (String × ConnectionProfile))
    (s : SelectorState) (availableNodes : List String) : List String :=
  let combinedScores := availableNodes.map (fun n =>
    let qualityScore := match alistGet monitor n with
      | some p => calculateQualityScore p
      | none => 50
    let contributionScore := (alistGet s.nodeScores n).getD 50
    (n, (6/10 : ℚ) * qualityScore + (4/10 : ℚ) * contributionScore))
  let sorted := sortDescBy Prod.snd combinedScores
  let n := match s.maxSelectedNodes with
    | some m => if m = 0 then availableNodes.length else m
    | none => availableNodes.length
  (sorted.take n).map Prod.fst

/-- `DynamicNodeSelector._select_adaptive_threshold`: threshold
`max(min_quality_score, mean − 0.5·std)` over the profiled nodes' quality
scores (`np.std` is the population deviation; its square root is the
abstracted `sqrtFn`). -/
def selectAdaptiveThreshold (sqrtFn : ℚ → ℚ)
    (monitor : List (String × ConnectionProfile)) (s : SelectorState)
    (availableNodes : List String) : List String :=
  let qualityScores := availableNodes.filterMap (fun n =>
    (alistGet monitor n).map calculateQualityScore)
  if qualityScores.isEmpty then availableNodes
  else
    let meanQuality := qualityScores.sum / qualityScores.length
    let variance :=
      ((qualityScores.map (fun q => (q - meanQuality) * (q - meanQuality))).sum) /
        qualityScores.length
    let stdQuality := sqrtFn variance
    let adaptiveThreshold :=
      max s.minQualityScore (meanQuality - (1/2) * stdQuality)
    availableNodes.filter (fun n =>
      match alistGet monitor n with
      | none => true
      | some p => decide (calculateQualityScore p ≥ adaptiveThreshold))

/-- `DynamicNodeSelector._select_by_contribution`: include iff the stored
contribution score (default 50) is at least the literal threshold 30. -/
def selectByContribution (s : SelectorState) (availableNodes : List String) :
    List String :=
  availableNodes.filter (fun n =>
    decide ((alistGet s.nodeScores n).getD 50 ≥ (30 : ℚ)))

/-- `DynamicNodeSelector.select_nodes`: release expired quarantines, filter
out quarantined nodes, apply the strategy, then update the per-node
selection/exclusion counters and the bounded history. -/
def selectNodes (sqrtFn : ℚ → ℚ) (monitor : List (String × ConnectionProfile))
    (s : SelectorState) (availableNodes? : Option (List String)) (now : ℚ) :
    List String × SelectorState :=
  let s := checkQuarantineExpiry s now
  let availableNodes := match availableNodes? with
    | some l => l
    | none => s.nodeStates.map Prod.fst
  let availableNodes := availableNodes.filter (fun n =>
    decide (alistGet s.nodeStates n ≠ some NodeState.quarantined))
  if availableNodes.isEmpty then ([], s)
  else
    let selected := match s.strategy with
      | .allAvailable => availableNodes
      | .qualityThreshold => selectByQualityThreshold monitor s availableNodes
      | .topN => selectTopN monitor s availableNodes
      | .adaptiveThreshold => selectAdaptiveThreshold sqrtFn monitor s availableNodes
      | .contributionBased => selectByContribution s availableNodes
    let s : SelectorState := availableNodes.foldl (fun st n =>
      if selected.contains n then
        let c := (alistGet st.nodeSelectionCounts n).getD 0 + 1
        { st with nodeSelectionCounts := alistSet st.nodeSelectionCounts n c }
      else
        let c := (alistGet st.nodeExclusionCounts n).getD 0 + 1
        { st with nodeExclusionCounts := alistSet st.nodeExclusionCounts n c }) s
    let s : SelectorState := { s with totalSelections := s.totalSelections + 1 }
    let s : SelectorState :=
      { s with selectionHistory := s.selectionHistory ++ [selected] }
    let s : SelectorState :=
      if s.maxHistory < s.selectionHistory.length then
        { s with selectionHistory :=
            s.selectionHistory.drop (s.selectionHistory.length - s.maxHistory) }
      else s
    (selected, s)

/-- The selector state reached by a single worker "X" submitting only
zero-time contributions: `a` successes, `b` failures, current score `sc`. -/
def xState (a b : ℕ) (sc : ℚ) : SelectorState :=
  { nodeStates := [("X", NodeState.active)],
    nodeScores := [("X", sc)],
    nodeContributions := [("X",
      { successfulContributions := a, failedContributions := b,
        totalContributionScore := sc })],
    nodeSelectionCounts := [("X", 0)], nodeExclusionCounts := [("X", 0)] }

/-- A sequence of `record_contribution` calls for one worker (success
flags in order), with fixed zero compute/waiting time. -/
def runContributions (s : SelectorState) (nodeId : String)
    (events : List Bool) (now : ℚ) : SelectorState :=
  events.foldl (fun st success => recordContribution st nodeId 0 0 success now) s

/-! ## Adaptive orchestrator (`adaptive_orchestrator.py`) -/

/-- `AdaptationPolicy`. -/
inductive AdaptationPolicy where
  | conservative
  | aggressive
  | reactive
  | proactive
deriving DecidableEq, Repr

/-- `TrainingPhase` (the source's INITIALIZATION phase is called `startup`
here; `initialization` collides with reserved vocabulary). -/
inductive TrainingPhase where
  | startup
  | warmup
  | adaptiveTraining
  | convergence
  | completed
deriving DecidableEq, Repr

/-- The fields of `AdaptiveOrchestrator` read by
`_should_adapt_this_round`.  Round counters are integers, as in the
source. -/
structure OrchestratorState where
  adaptationPolicy : AdaptationPolicy := .reactive
  adaptationInterval : Nat := 5
  warmupRounds : Nat := 10
  phase : TrainingPhase := .startup
  lastAdaptationRound : ℤ := 0
deriving Repr

/-- `AdaptiveOrchestrator._should_adapt_this_round`: never in warmup; never
before `adaptation_interval` rounds have passed since the last adaptation
(this guard precedes every policy branch); then conservative doubles the
interval, aggressive always adapts, reactive adapts on problems or on
schedule, and any other policy falls through to adapting. -/
def shouldAdaptThisRound (o : OrchestratorState)
    (profiles : List (String × ConnectionProfile)) (roundNumber : ℤ) : Bool :=
  if o.phase = .warmup then false
  else
    let roundsSinceLast := roundNumber - o.lastAdaptationRound
    if roundsSinceLast < (o.adaptationInterval : ℤ) then false
    else if o.adaptationPolicy = .conservative then
      if roundsSinceLast < (o.adaptationInterval : ℤ) * 2 then false else true
    else if o.adaptationPolicy = .aggressive then true
    else if o.adaptationPolicy = .reactive then
      decide (0 < (getProblematicNodes profiles).length) ||
        decide ((o.adaptationInterval : ℤ) ≤ roundsSinceLast)
    else true

/-! ## Contribution calculator (`contribution_calculator.py`) -/

/-- `NodeContribution`: per-worker cumulative session metrics.  Derived
scores are recomputed by the `calc*` functions below; timestamps are
rationals. -/
structure NodeContribution where
  nodeId : String := ""
  nodeAddress : String := ""
  computeTime : ℚ := 0
  gradientsAccepted : Nat := 0
  gradientsRejected : Nat := 0
  successfulRounds : Nat := 0
  failedRounds : Nat := 0
  samplesProcessed : Nat := 0
  avgGradientNorm : ℚ := 0
  gradientConsistency : ℚ := 0
  avgLoss : ℚ := 0
  avgLatencyMs : ℚ := 0
  uptimePercentage : ℚ := 0
  qualityScore : ℤ := 0
  reliabilityScore : ℤ := 0
  finalScore : ℤ := 0
  firstContribution : Option ℚ := none
  lastContribution : Option ℚ := none
deriving DecidableEq, Repr

/-- `ContributionCalculator.add_training_metrics`, restricted to one
worker's record: accumulates compute time and samples and tracks the
first/last contribution timestamps. -/
def addTrainingMetrics (c : NodeContribution) (timeTakenSeconds : ℚ)
    (samplesProcessed : Nat) (timestamp : ℚ) : NodeContribution :=
  let c := { c with
    computeTime := c.computeTime + timeTakenSeconds
    samplesProcessed := c.samplesProcessed + samplesProcessed }
  let c := match c.firstContribution with
    | none => { c with firstContribution := some timestamp }
    | some _ => c
  { c with lastContribution := some timestamp }

/-- `ContributionCalculator.record_gradient_submission`, restricted to one
worker's record: accepted submissions bump the accepted/successful counters
and fold the norm into a running mean; rejected ones bump the
rejected/failed counters. -/
def recordGradientSubmission (c : NodeContribution) (accepted : Bool)
    (gradientNorm : Option ℚ) : NodeContribution :=
  if accepted then
    let c := { c with
      gradientsAccepted := c.gradientsAccepted + 1
      successfulRounds := c.successfulRounds + 1 }
    match gradientNorm with
    | some gn =>
        let total := c.gradientsAccepted
        { c with
          avgGradientNorm := (c.avgGradientNorm * ((total : ℚ) - 1) + gn) / total }
    | none => c
  else
    { c with
      gradientsRejected := c.gradientsRejected + 1
      failedRounds := c.failedRounds + 1 }

/-- `ContributionCalculator.calculate_quality_score` (0–10000): acceptance
rate (0–5000) + gradient-norm consistency (0–3000) + round success rate
(0–2000), capped at 10000. -/
def calcQualityScore (c : NodeContribution) : ℤ :=
  let totalGradients := c.gradientsAccepted + c.gradientsRejected
  let acceptanceScore : ℤ :=
    if totalGradients = 0 then 0
    else pyInt ((c.gradientsAccepted : ℚ) / totalGradients * 5000)
  let consistencyScore : ℤ :=
    if 0 < c.avgGradientNorm then
      pyInt (min 1 (c.avgGradientNorm / 10) * 3000)
    else 0
  let totalRounds := c.successfulRounds + c.failedRounds
  let successScore : ℤ :=
    if 0 < totalRounds then
      pyInt ((c.successfulRounds : ℚ) / totalRounds * 2000)
    else 0
  min 10000 (acceptanceScore + consistencyScore + successScore)

/-- `ContributionCalculator.calculate_reliability_score` (0–10000):
participation `min(5000, successful_rounds·100)` + latency-derived network
score (default 2000 when no latency recorded) + uptime score (default
2000), capped at 10000. -/
def calcReliabilityScore (c : NodeContribution) : ℤ :=
  let participationScore : ℤ := min 5000 ((c.successfulRounds : ℤ) * 100)
  let networkScore : ℤ :=
    if 0 < c.avgLatencyMs then
      pyInt (max 0 (min 1 ((500 - c.avgLatencyMs) / 450)) * 3000)
    else 2000
  let uptimeScore : ℤ :=
    if 0 < c.uptimePercentage then pyInt (c.uptimePercentage * 2000)
    else 2000
  min 10000 (participationScore + networkScore + uptimeScore)

/-- `ContributionCalculator.calculate_final_score`:
`int(int(compute_time) · (0.5 + quality/10000) · (0.8 + 0.4·reliability/10000))`. -/
def calcFinalScore (c : NodeContribution) : ℤ :=
  let baseScore : ℤ := pyInt c.computeTime
  let qualityMultiplier : ℚ := 1/2 + (calcQualityScore c : ℚ) / 10000
  let reliabilityMultiplier : ℚ :=
    4/5 + (calcReliabilityScore c : ℚ) / 10000 * (2/5)
  pyInt ((baseScore : ℚ) * qualityMultiplier * reliabilityMultiplier)

/-- A legal metric update within a session, as named by the specification:
adding training metrics or recording a gradient submission result. -/
inductive MetricUpdate where
  | train (timeTakenSeconds : ℚ) (samplesProcessed : Nat) (timestamp : ℚ)
  | gradient (accepted : Bool) (gradientNorm : Option ℚ)

/-- Apply one legal metric update to a worker's contribution record. -/
def applyMetricUpdate (u : MetricUpdate) (c : NodeContribution) :
    NodeContribution :=
  match u with
  | .train t n ts => addTrainingMetrics c t n ts
  | .gradient a gn => recordGradientSubmission c a gn

/-! ## Reward calculator (`reward_calculator.py`) -/

/-- `RewardStrategy`. -/
inductive RewardStrategy where
  | proportional
  | tiered
  | performanceBased
  | hybrid
deriving DecidableEq, Repr

/-- The `ValueError`s raised by `RewardCalculator` (the source raises with
message strings; the constructor identifies the message). -/
inductive RewardError where
  | noContributions
  | zeroTotalContribution
  | invalidDistribution
deriving DecidableEq, Repr

/-- `NodeReward`.  The hybrid strategy's bonus breakdown (stored in
`metadata` by the source) is carried in the last two fields. -/
structure NodeReward where
  nodeId : String
  nodeAddress : String
  contributionScore : ℤ
  contributionPercentage : ℚ
  baseReward : ℤ
  bonusReward : ℤ
  totalReward : ℤ
  tier : Option Nat := none
  qualityBonus : ℤ := 0
  reliabilityBonus : ℤ := 0
deriving DecidableEq, Repr

/-- `RewardDistribution`. -/
structure RewardDistribution where
  sessionId : String
  strategy : RewardStrategy
  totalPool : ℤ
  totalDistributed : ℤ
  nodeRewards : List (String × NodeReward)
  minReward : ℤ
  maxReward : ℤ
  avgReward : ℚ
deriving DecidableEq, Repr

/-- Sum of the per-node total rewards of a distribution's reward map. -/
def sumTotalRewards (rewards : List (String × NodeReward)) : ℤ :=
  (rewards.map (fun p => p.2.totalReward)).sum

/-- Python `min(list)` on integers (0 on the empty list, which the source
never reaches). -/
def listMinZ : List ℤ → ℤ
  | [] => 0
  | x :: xs => xs.foldl min x

/-- Python `max(list)` on integers. -/
def listMaxZ : List ℤ → ℤ
  | [] => 0
  | x :: xs => xs.foldl max x

/-- `statistics.mean` on integers, exactly. -/
def listMeanZ (l : List ℤ) : ℚ :=
  if l.isEmpty then 0 else ((l.map (fun x => (x : ℚ))).sum) / l.length

/-- `RewardDistribution.validate`: the recorded `total_distributed` must be
within 1% of the pool of the recomputed sum, and must not exceed the pool.
Both quantities are the same sum by construction, so only the second check
can fail. -/
def validateDistribution (d : RewardDistribution) : Bool :=
  let calculatedTotal := sumTotalRewards d.nodeRewards
  let tolerance : ℚ := (d.totalPool : ℚ) * (1/100)
  if |(calculatedTotal : ℚ) - (d.totalDistributed : ℚ)| > tolerance then false
  else if d.totalPool < d.totalDistributed then false
  else true

/-- `RewardCalculator.calculate_proportional`:
`share = int((pool · final_score) / Σ final_score)` per node. -/
def calculateProportional (sessionId : String) (totalPool : ℤ)
    (contributions : List (String × NodeContribution)) :
    Except RewardError RewardDistribution :=
  if contributions.isEmpty then .error .noContributions
  else
    let totalContribution : ℤ :=
      (contributions.map (fun p => p.2.finalScore)).sum
    if totalContribution = 0 then .error .zeroTotalContribution
    else
      let nodeRewards : List (String × NodeReward) :=
        contributions.map (fun p =>
          let percentage : ℚ := (p.2.finalScore : ℚ) / (totalContribution : ℚ)
          let rewardAmount : ℤ :=
            pyInt (((totalPool * p.2.finalScore : ℤ) : ℚ) / (totalContribution : ℚ))
          (p.1,
            { nodeId := p.1
              nodeAddress := p.2.nodeAddress
              contributionScore := p.2.finalScore
              contributionPercentage := percentage * 100
              baseReward := rewardAmount
              bonusReward := 0
              totalReward := rewardAmount }))
      let totalDistributed := sumTotalRewards nodeRewards
      let rewardAmounts := nodeRewards.map (fun p => p.2.totalReward)
      .ok
        { sessionId := sessionId
          strategy := .proportional
          totalPool := totalPool
          totalDistributed := totalDistributed
          nodeRewards := nodeRewards
          minReward := listMinZ rewardAmounts
          maxReward := listMaxZ rewardAmounts
          avgReward := listMeanZ rewardAmounts }

/-- `RewardCalculator.calculate_tiered`: 85% proportional base pool; the
remaining 15% is a bonus pool of which each top-50% node receives a 15%
share weight and each next-tier (top-80%) node a 5% share weight, weighted
by final score.  Cutoffs are `int(n·0.5)` and `int(n·0.8)`. -/
def calculateTiered (sessionId : String) (totalPool : ℤ)
    (contributions : List (String × NodeContribution)) :
    Except RewardError RewardDistribution :=
  if contributions.isEmpty then .error .noContributions
  else
    let sortedNodes := sortDescBy (fun p => (p.2.finalScore : ℚ)) contributions
    let totalContribution : ℤ :=
      (contributions.map (fun p => p.2.finalScore)).sum
    if totalContribution = 0 then .error .zeroTotalContribution
    else
      let nodeCount := sortedNodes.length
      let tier1Cutoff : ℤ := pyInt ((nodeCount : ℚ) * (1/2))
      let tier2Cutoff : ℤ := pyInt ((nodeCount : ℚ) * (4/5))
      let basePool : ℤ := pyInt ((totalPool : ℚ) * (85/100))
      let bonusPool : ℤ := totalPool - basePool
      let nodeRewards : List (String × NodeReward) :=
        sortedNodes.enum.map (fun e =>
          let idx := e.1
          let nid := e.2.1
          let c := e.2.2
          let baseReward : ℤ :=
            pyInt (((basePool * c.finalScore : ℤ) : ℚ) / (totalContribution : ℚ))
          let tier : Nat :=
            if (idx : ℤ) < tier1Cutoff then 1
            else if (idx : ℤ) < tier2Cutoff then 2
            else 3
          let bonusShare : ℚ :=
            if (idx : ℤ) < tier1Cutoff then 15/100
            else if (idx : ℤ) < tier2Cutoff then 5/100
            else 0
          let bonusReward : ℤ :=
            if 0 < bonusShare then
              pyInt (((bonusPool * c.finalScore : ℤ) : ℚ) * bonusShare /
                (totalContribution : ℚ))
            else 0
          (nid,
            { nodeId := nid
              nodeAddress := c.nodeAddress
              contributionScore := c.finalScore
              contributionPercentage := (c.finalScore : ℚ) / (totalContribution : ℚ) * 100
              baseReward := baseReward
              bonusReward := bonusReward
              totalReward := baseReward + bonusReward
              tier := some tier }))
      let totalDistributed := sumTotalRewards nodeRewards
      let rewardAmounts := nodeRewards.map (fun p => p.2.totalReward)
      .ok
        { sessionId := sessionId
          strategy := .tiered
          totalPool := totalPool
          totalDistributed := totalDistributed
          nodeRewards := nodeRewards
          minReward := listMinZ rewardAmounts
          maxReward := listMaxZ rewardAmounts
          avgReward := listMeanZ rewardAmounts }

/-- `RewardCalculator.calculate_with_minimum`: proportional shares; nodes
below `int(avg·min_percentage)` are lifted to that floor, paid for by an
equal per-node deduction from above-minimum nodes (clamped at the floor);
when every node is below the floor the pool is split as `pool // n`. -/
def calculateWithMinimum (sessionId : String) (totalPool : ℤ)
    (contributions : List (String × NodeContribution)) (minPercentage : ℚ) :
    Except RewardError RewardDistribution :=
  if contributions.isEmpty then .error .noContributions
  else
    let nodeCount := contributions.length
    let totalContribution : ℤ :=
      (contributions.map (fun p => p.2.finalScore)).sum
    if totalContribution = 0 then .error .zeroTotalContribution
    else
      let avgReward : ℚ := (totalPool : ℚ) / (nodeCount : ℚ)
      let minReward : ℤ := pyInt (avgReward * minPercentage)
      let proportionalRewards : List (String × ℤ) :=
        contributions.map (fun p =>
          (p.1, pyInt ((totalPool : ℚ) * ((p.2.finalScore : ℚ) / (totalContribution : ℚ)))))
      let belowMinNodes : List String :=
        (proportionalRewards.filter (fun p => p.2 < minReward)).map Prod.fst
      let belowMinTotal : ℤ :=
        ((proportionalRewards.filter (fun p => p.2 < minReward)).map
          (fun p => minReward - p.2)).sum
      let nodeRewards : List (String × NodeReward) :=
        if belowMinNodes.isEmpty then
          contributions.map (fun p =>
            let reward := (alistGet proportionalRewards p.1).getD 0
            (p.1,
              { nodeId := p.1
                nodeAddress := p.2.nodeAddress
                contributionScore := p.2.finalScore
                contributionPercentage :=
                  (p.2.finalScore : ℚ) / (totalContribution : ℚ) * 100
                baseReward := reward
                bonusReward := 0
                totalReward := reward }))
        else
          let aboveMinNodes : List String :=
            (contributions.map Prod.fst).filter
              (fun n => !(belowMinNodes.contains n))
          let reductionPerNode : ℚ :=
            if aboveMinNodes.isEmpty then 0
            else (belowMinTotal : ℚ) / (aboveMinNodes.length : ℚ)
          -- Python `pool // node_count` (floor division); Lean's `Int./` is
          -- Euclidean division, which agrees for a positive divisor
          let minReward : ℤ :=
            if aboveMinNodes.isEmpty then totalPool / (nodeCount : ℤ)
            else minReward
          contributions.map (fun p =>
            let prop := (alistGet proportionalRewards p.1).getD 0
            let finalReward : ℤ :=
              if belowMinNodes.contains p.1 then minReward
              else max minReward (pyInt ((prop : ℚ) - reductionPerNode))
            (p.1,
              { nodeId := p.1
                nodeAddress := p.2.nodeAddress
                contributionScore := p.2.finalScore
                contributionPercentage :=
                  (p.2.finalScore : ℚ) / (totalContribution : ℚ) * 100
                baseReward := prop
                bonusReward := finalReward - prop
                totalReward := finalReward }))
      let totalDistributed := sumTotalRewards nodeRewards
      let rewardAmounts := nodeRewards.map (fun p => p.2.totalReward)
      .ok
        { sessionId := sessionId
          strategy := .performanceBased
          totalPool := totalPool
          totalDistributed := totalDistributed
          nodeRewards := nodeRewards
          minReward := listMinZ rewardAmounts
          maxReward := listMaxZ rewardAmounts
          avgReward := listMeanZ rewardAmounts }

/-- `RewardCalculator.calculate_hybrid`: `int(pool·0.70)` proportional,
`int(pool·0.20)` weighted by quality score, remainder weighted by
reliability score. -/
def calculateHybrid (sessionId : String) (totalPool : ℤ)
    (contributions : List (String × NodeContribution)) :
    Except RewardError RewardDistribution :=
  if contributions.isEmpty then .error .noContributions
  else
    let totalContribution : ℤ :=
      (contributions.map (fun p => p.2.finalScore)).sum
    if totalContribution = 0 then .error .zeroTotalContribution
    else
      let proportionalPool : ℤ := pyInt ((totalPool : ℚ) * (7/10))
      let qualityBonusPool : ℤ := pyInt ((totalPool : ℚ) * (2/10))
      let reliabilityBonusPool : ℤ := totalPool - proportionalPool - qualityBonusPool
      let totalQuality : ℤ := (contributions.map (fun p => p.2.qualityScore)).sum
      let totalReliability : ℤ :=
        (contributions.map (fun p => p.2.reliabilityScore)).sum
      let nodeRewards : List (String × NodeReward) :=
        contributions.map (fun p =>
          let propReward : ℤ :=
            pyInt (((proportionalPool * p.2.finalScore : ℤ) : ℚ) /
              (totalContribution : ℚ))
          let qualityBonus : ℤ :=
            if 0 < totalQuality then
              pyInt (((qualityBonusPool * p.2.qualityScore : ℤ) : ℚ) /
                (totalQuality : ℚ))
            else 0
          let reliabilityBonus : ℤ :=
            if 0 < totalReliability then
              pyInt (((reliabilityBonusPool * p.2.reliabilityScore : ℤ) : ℚ) /
                (totalReliability : ℚ))
            else 0
          let totalBonus := qualityBonus + reliabilityBonus
          (p.1,
            { nodeId := p.1
              nodeAddress := p.2.nodeAddress
              contributionScore := p.2.finalScore
              contributionPercentage :=
                (p.2.finalScore : ℚ) / (totalContribution : ℚ) * 100
              baseReward := propReward
              bonusReward := totalBonus
              totalReward := propReward + totalBonus
              qualityBonus := qualityBonus
              reliabilityBonus := reliabilityBonus }))
      let totalDistributed := sumTotalRewards nodeRewards
      let rewardAmounts := nodeRewards.map (fun p => p.2.totalReward)
      .ok
        { sessionId := sessionId
          strategy := .hybrid
          totalPool := totalPool
          totalDistributed := totalDistributed
          nodeRewards := nodeRewards
          minReward := listMinZ rewardAmounts
          maxReward := listMaxZ rewardAmounts
          avgReward := listMeanZ rewardAmounts }

/-- `RewardCalculator.calculate`: dispatch on the strategy, then validate;
an invalid distribution fails the whole computation instead of being
returned.  (`performanceBased` uses `min_percentage=0.5`, as in the
source.) -/
def calculateRewards (sessionId : String) (totalPool : ℤ)
    (contributions : List (String × NodeContribution))
    (strategy : RewardStrategy) : Except RewardError RewardDistribution :=
  let result := match strategy with
    | .proportional => calculateProportional sessionId totalPool contributions
    | .tiered => calculateTiered sessionId totalPool contributions
    | .performanceBased =>
        calculateWithMinimum sessionId totalPool contributions (1/2)
    | .hybrid => calculateHybrid sessionId totalPool contributions
  match result with
  | .error e => .error e
  | .ok dist =>
      if validateDistribution dist then .ok dist
      else .error .invalidDistribution

/-! ## Specification-side definitions for the quality-score refinement

The definitions below transcribe the *specification's* wording of the
latency component — "40 points if mean latency < 50 ms; linearly decays to
0 by 300 ms" read as a single linear decay — to be compared against the
source-side `calculateQualityScore`. -/

/-- The latency component as the spec sentence reads: full 40 points below
50 ms, a single linear decay from 40 at 50 ms to 0 at 300 ms, 0 beyond. -/
def specLatencyScore (avgLatency : ℚ) : ℚ :=
  if avgLatency < 50 then 40
  else if avgLatency < 300 then 40 * (300 - avgLatency) / 250
  else 0

/-- The quality score with the spec's single-linear-decay latency component
and the packet-loss and reliability components as specified. -/
def specQualityScore (p : ConnectionProfile) : ℚ :=
  if p.latencyHistory.length < 3 then 50
  else
    max 0 (min 100
      (specLatencyScore (getCurrentLatencyMs p) +
        max 0 (30 * (1 - getPacketLossRate p * 10)) +
        getReliabilityScore p * 30))

/-- The latency component the source actually computes, stated in closed
form: 40 below 50 ms, slope −0.3/ms on [50,150), slope −0.067/ms on
[150,300), 0 from 300 ms on. -/
def amendedLatencyScore (avgLatency : ℚ) : ℚ :=
  if avgLatency < 50 then 40
  else if avgLatency < 150 then 40 - (3/10) * (avgLatency - 50)
  else if avgLatency < 300 then 10 - (67/1000) * (avgLatency - 150)
  else 0

/-- The packet-loss component: `30·(1 − 10·loss_rate)` clamped below at 0
(its value never exceeds 30 because the loss rate is nonnegative). -/
def packetLossComponent (p : ConnectionProfile) : ℚ :=
  max 0 (30 * (1 - getPacketLossRate p * 10))

/-- The reliability component: `30·success_rate` over cumulative totals. -/
def reliabilityComponent (p : ConnectionProfile) : ℚ :=
  getReliabilityScore p * 30

/-! ## Supporting lemmas -/

lemma pyInt_eq_floor (q : ℚ) (h : 0 ≤ q) : pyInt q = ⌊q⌋ := by
  rw [Rat.floor_def, pyInt, Int.tdiv_eq_ediv (Rat.num_nonneg.mpr h) (by positivity)]

lemma pyInt_le (q : ℚ) (h : 0 ≤ q) : (pyInt q : ℚ) ≤ q := by
  rw [pyInt_eq_floor q h]; exact Int.floor_le q

lemma pyInt_nonneg (q : ℚ) (h : 0 ≤ q) : 0 ≤ pyInt q := by
  rw [pyInt_eq_floor q h]; positivity

lemma alistGet_alistSet_self {α : Type} (l : List (String × α)) (k : String)
    (v : α) : alistGet (alistSet l k v) k = some v := by
  induction l with
  | nil => simp [alistGet, alistSet]
  | cons hd tl ih =>
    unfold alistSet
    by_cases h : hd.1 == k
    · have h1 : hd.1 = k := by simpa using h
      simp [alistGet, h1]
    · have h1 : ¬ hd.1 = k := by simpa using h
      simp [alistGet, h1, ih]

lemma alistGet_alistSet_ne {α : Type} (l : List (String × α)) (k k' : String)
    (v : α) (hne : k' ≠ k) : alistGet (alistSet l k v) k' = alistGet l k' := by
  have hkk' : ¬ (k = k') := fun hh => hne hh.symm
  induction l with
  | nil => simp [alistGet, alistSet, hkk']
  | cons hd tl ih =>
    by_cases h1 : hd.1 = k
    · have e : alistSet (hd :: tl) k v = (k, v) :: tl := by simp [alistSet, h1]
      rw [e]
      simp [alistGet, h1, hkk']
    · have e : alistSet (hd :: tl) k v = hd :: alistSet tl k v := by
        simp [alistSet, h1]
      rw [e]
      by_cases h2 : hd.1 = k'
      · simp [alistGet, h2]
      · simp [alistGet, h2, ih]

lemma mem_insertDescBy {α : Type} (key : α → ℚ) (x : α) (l : List α) (y : α) :
    y ∈ insertDescBy key x l → y = x ∨ y ∈ l := by
  induction l with
  | nil => simp [insertDescBy]
  | cons hd tl ih =>
    unfold insertDescBy
    by_cases h : key hd ≥ key x
    · simp only [if_pos h, List.mem_cons]
      rintro (rfl | hy)
      · right; left; rfl
      · rcases ih hy with h1 | h1
        · exact Or.inl h1
        · right; right; exact h1
    · simp only [if_neg h, List.mem_cons]
      rintro (rfl | rfl | hy)
      · exact Or.inl rfl
      · right; left; rfl
      · right; right; exact hy

lemma mem_sortDescBy {α : Type} (key : α → ℚ) (l : List α) (y : α) :
    y ∈ sortDescBy key l → y ∈ l := by
  unfold sortDescBy
  suffices h : ∀ acc, y ∈ l.foldl (fun acc x => insertDescBy key x acc) acc →
      y ∈ acc ∨ y ∈ l by
    intro hy
    rcases h [] hy with h1 | h1
    · simp at h1
    · exact h1
  induction l with
  | nil => intro acc hy; exact Or.inl hy
  | cons hd tl ih =>
    intro acc hy
    rcases ih (insertDescBy key hd acc) hy with h1 | h1
    · rcases mem_insertDescBy key hd acc y h1 with rfl | h2
      · exact Or.inr (by simp)
      · exact Or.inl h2
    · exact Or.inr (by simp [h1])

/-! ## Claim theorems -/

/-- **C10.** A worker profile with fewer than 3 recorded latency samples
scores exactly 50, regardless of how many recorded communications failed,
and therefore passes the `quality_threshold` selection gate whenever
`min_quality_score ≤ 50` (which covers the default 30). -/
theorem fresh_profile_scores_fifty_and_passes_gate
    (p : ConnectionProfile) (monitor : List (String × ConnectionProfile))
    (s : SelectorState) (availableNodes : List String) (node : String)
    (hlen : p.latencyHistory.length < 3)
    (hq : s.minQualityScore ≤ 50)
    (hmon : alistGet monitor node = some p)
    (hav : node ∈ availableNodes) :
    calculateQualityScore p = 50 ∧
    node ∈ selectByQualityThreshold monitor s availableNodes := by
  have hscore : calculateQualityScore p = 50 := by
    simp [calculateQualityScore, hlen]
  refine ⟨hscore, ?_⟩
  unfold selectByQualityThreshold
  rw [List.mem_filter]
  refine ⟨hav, ?_⟩
  rw [hmon]
  simp only [decide_eq_true_eq, ge_iff_le, hscore]
  exact hq

/-- Witness for C10 at a concrete two-sample, all-failure profile with the
default threshold 30. -/
theorem fresh_profile_scores_fifty_and_passes_gate_witness :
    calculateQualityScore
      { latencyHistory := [400, 400], packetLossEvents := [true, true],
        totalMessagesSent := 2, totalFailures := 2 } = 50 ∧
    "N" ∈ selectByQualityThreshold
      [("N", { latencyHistory := [400, 400], packetLossEvents := [true, true],
               totalMessagesSent := 2, totalFailures := 2 })]
      { strategy := .qualityThreshold } ["N"] :=
  fresh_profile_scores_fifty_and_passes_gate _ _ _ _ _
    (by norm_num) (by norm_num) rfl (by simp)

/-- **C8.** With the reactive policy, outside warmup, and a monitor
reporting a problematic (poor) node: 2 rounds after the last adaptation
(interval 5) the orchestrator does **not** adapt — the interval guard
returns before the reactive branch can consult the monitor — while at the
interval boundary it does.  This contradicts the documented reactive
behaviour ("respond immediately to changes" / adapt whenever problems are
reported). -/
theorem reactive_policy_blocked_by_interval_guard :
    getProblematicNodes [("P", { currentQuality := ConnectionQuality.poor })]
      = ["P"] ∧
    shouldAdaptThisRound
      { adaptationPolicy := .reactive, adaptationInterval := 5,
        warmupRounds := 10, phase := .adaptiveTraining,
        lastAdaptationRound := 10 }
      [("P", { currentQuality := ConnectionQuality.poor })] 12 = false ∧
    shouldAdaptThisRound
      { adaptationPolicy := .reactive, adaptationInterval := 5,
        warmupRounds := 10, phase := .adaptiveTraining,
        lastAdaptationRound := 10 }
      [("P", { currentQuality := ConnectionQuality.poor })] 15 = true := by
  refine ⟨rfl, ?_, ?_⟩ <;>
    simp [shouldAdaptThisRound, getProblematicNodes, getNodesByQuality,
      qualityIndex]

/-- **C4 (amended).** For profiles with at least 3 latency samples the
quality score is the clamped sum of the three components, with the latency
component the *two-slope* piecewise decay `amendedLatencyScore` (40 below
50 ms, −0.3/ms to 10 at 150 ms, −0.067/ms on [150,300), 0 from 300 ms); and
for every profile the score lies in [0,100]. -/
theorem quality_score_piecewise_and_range (p : ConnectionProfile) :
    (3 ≤ p.latencyHistory.length →
      calculateQualityScore p =
        max 0 (min 100 (amendedLatencyScore (getCurrentLatencyMs p) +
          packetLossComponent p + reliabilityComponent p))) ∧
    0 ≤ calculateQualityScore p ∧ calculateQualityScore p ≤ 100 := by
  constructor
  · intro h3
    have hlen : ¬ p.latencyHistory.length < 3 := by omega
    unfold calculateQualityScore amendedLatencyScore packetLossComponent
      reliabilityComponent
    simp only [hlen, if_false]
    split_ifs <;> ring_nf
  · unfold calculateQualityScore
    by_cases hlen : p.latencyHistory.length < 3
    · simp only [hlen, if_true]
      norm_num
    · simp only [hlen, if_false]
      refine ⟨le_max_left _ _, max_le (by norm_num) (min_le_left _ _)⟩

/-- Witness for C4 (amended) at a 3-sample profile with 100 ms mean
latency. -/
theorem quality_score_piecewise_and_range_witness :
    (calculateQualityScore
        { latencyHistory := [100, 100, 100],
          packetLossEvents := [false, false, false],
          totalMessagesSent := 3, totalMessagesReceived := 3 } =
      max 0 (min 100 (amendedLatencyScore (getCurrentLatencyMs
        { latencyHistory := [100, 100, 100],
          packetLossEvents := [false, false, false],
          totalMessagesSent := 3, totalMessagesReceived := 3 }) +
        packetLossComponent
        { latencyHistory := [100, 100, 100],
          packetLossEvents := [false, false, false],
          totalMessagesSent := 3, totalMessagesReceived := 3 } +
        reliabilityComponent
        { latencyHistory := [100, 100, 100],
          packetLossEvents := [false, false, false],
          totalMessagesSent := 3, totalMessagesReceived := 3 }))) ∧
    0 ≤ calculateQualityScore
        { latencyHistory := [100, 100, 100],
          packetLossEvents := [false, false, false],
          totalMessagesSent := 3, totalMessagesReceived := 3 } ∧
    calculateQualityScore
        { latencyHistory := [100, 100, 100],
          packetLossEvents := [false, false, false],
          totalMessagesSent := 3, totalMessagesReceived := 3 } ≤ 100 :=
  ⟨(quality_score_piecewise_and_range _).1 (by norm_num),
    (quality_score_piecewise_and_range _).2⟩

/-- **C4 (counterexample).** At mean latency 150 ms (three clean samples)
the source computes 10 latency points — the second slope of its two-piece
decay — for a total of 70, while a single linear decay from 40 at 50 ms to
0 at 300 ms would give 24 latency points and a total of 84. -/
theorem quality_score_single_linear_decay_refuted :
    calculateQualityScore
      { latencyHistory := [150, 150, 150],
        packetLossEvents := [false, false, false],
        totalMessagesSent := 3, totalMessagesReceived := 3 } = 70 ∧
    specQualityScore
      { latencyHistory := [150, 150, 150],
        packetLossEvents := [false, false, false],
        totalMessagesSent := 3, totalMessagesReceived := 3 } = 84 ∧
    (70 : ℚ) ≠ 84 := by
  refine ⟨?_, ?_, by norm_num⟩
  · norm_num [calculateQualityScore, getCurrentLatencyMs, getPacketLossRate,
      getReliabilityScore, List.filter, List.sum_cons, List.sum_nil]
  · norm_num [specQualityScore, specLatencyScore, getCurrentLatencyMs,
      getPacketLossRate, getReliabilityScore, List.filter, List.sum_cons,
      List.sum_nil]

/-- **C9 (amended).** `reliability_score` is monotonically non-decreasing
under every legal metric update (training metrics, accepted or rejected
gradient submissions): its latency and uptime inputs are never written by
these updates and `successful_rounds` only grows. -/
theorem reliability_score_monotone (c : NodeContribution) (u : MetricUpdate) :
    calcReliabilityScore c ≤ calcReliabilityScore (applyMetricUpdate u c) := by
  have hfields :
      c.successfulRounds ≤ (applyMetricUpdate u c).successfulRounds ∧
      (applyMetricUpdate u c).avgLatencyMs = c.avgLatencyMs ∧
      (applyMetricUpdate u c).uptimePercentage = c.uptimePercentage := by
    cases u with
    | train t n ts =>
      cases hc : c.firstContribution <;>
        simp [applyMetricUpdate, addTrainingMetrics, hc]
    | gradient a gn =>
      cases a with
      | false => simp [applyMetricUpdate, recordGradientSubmission]
      | true =>
        cases gn <;>
          simp [applyMetricUpdate, recordGradientSubmission]
  obtain ⟨h1, h2, h3⟩ := hfields
  unfold calcReliabilityScore
  rw [h2, h3]
  have hpart : min (5000 : ℤ) ((c.successfulRounds : ℤ) * 100) ≤
      min 5000 (((applyMetricUpdate u c).successfulRounds : ℤ) * 100) := by
    refine min_le_min le_rfl ?_
    have h1' : (c.successfulRounds : ℤ) ≤
        ((applyMetricUpdate u c).successfulRounds : ℤ) := by exact_mod_cast h1
    nlinarith
  exact min_le_min le_rfl (by linarith)

/-- **C9 (counterexample).** A rejected gradient submission — a legal
metric update — strictly decreases both `quality_score` (7000 → 3500) and
`final_score` (115 → 81) of a worker that had one accepted gradient and
100 s of compute, so the claimed monotonicity of all three scores fails. -/
theorem contribution_scores_not_monotone :
    calcQualityScore
        (applyMetricUpdate (.gradient true none)
          (applyMetricUpdate (.train 100 0 0) { nodeId := "X" })) = 7000 ∧
    calcQualityScore
        (applyMetricUpdate (.gradient false none)
          (applyMetricUpdate (.gradient true none)
            (applyMetricUpdate (.train 100 0 0) { nodeId := "X" }))) = 3500 ∧
    calcFinalScore
        (applyMetricUpdate (.gradient true none)
          (applyMetricUpdate (.train 100 0 0) { nodeId := "X" })) = 115 ∧
    calcFinalScore
        (applyMetricUpdate (.gradient false none)
          (applyMetricUpdate (.gradient true none)
            (applyMetricUpdate (.train 100 0 0) { nodeId := "X" }))) = 81 ∧
    (3500 : ℤ) < 7000 ∧ (81 : ℤ) < 115 := by
  refine ⟨?_, ?_, ?_, ?_, by norm_num, by norm_num⟩ <;>
  · simp only [applyMetricUpdate, addTrainingMetrics, recordGradientSubmission,
      calcQualityScore, calcReliabilityScore, calcFinalScore]
    norm_num
    simp (disch := norm_num) only [pyInt_eq_floor]
    norm_num

lemma alistGet_eq_none_iff {α : Type} (l : List (String × α)) (k : String) :
    alistGet l k = none ↔ k ∉ l.map Prod.fst := by
  induction l with
  | nil => simp [alistGet]
  | cons hd tl ih =>
    by_cases h : hd.1 = k
    · simp [alistGet, h]
    · have h2 : ¬ k = hd.1 := fun hh => h hh.symm
      simp [alistGet, h, h2, ih]

lemma alistSet_of_get_none {α : Type} (l : List (String × α)) (k : String)
    (v : α) (h : alistGet l k = none) : alistSet l k v = l ++ [(k, v)] := by
  induction l with
  | nil => simp [alistSet]
  | cons hd tl ih =>
    by_cases hk : hd.1 = k
    · simp [alistGet, hk] at h
    · simp [alistGet, hk] at h
      simp [alistSet, hk, ih h]

lemma validateGradients_eq_false_of_bad (gradients : Grads)
    (h : ∃ p ∈ gradients, p.2.hasNaN = true ∨ p.2.hasInf = true) :
    validateGradients gradients = false := by
  rcases h with ⟨p, hp, hbad⟩
  unfold validateGradients
  rw [List.all_eq_false]
  refine ⟨p, hp, ?_⟩
  rcases hbad with h | h <;> simp [h]

/-- **C1 (amended).** `receive_gradient` rejects — returning `False` and
adding only to the rejection counter, leaving the received map unchanged —
every submission from a worker outside the expected set, every duplicate
submission from a worker that already has an accepted gradient this round,
and every submission containing a NaN or Inf value; and it never creates a
second entry for a worker, so at most one gradient per worker is accepted
in a round.  (Per-parameter shapes are not checked at intake; see the
counterexample.) -/
theorem receive_gradient_rejects_and_at_most_once
    (sqrtFn : ℚ → ℚ) (s : AggState) (nodeId : String) (gradients : Grads)
    (metadata : Option GradMeta) :
    ((nodeId ∉ s.expectedNodes ∨
        nodeId ∈ s.receivedGradients.map Prod.fst ∨
        (∃ p ∈ gradients, p.2.hasNaN = true ∨ p.2.hasInf = true)) →
      receiveGradient sqrtFn s nodeId gradients metadata =
        (false, { s with rejectedGradients := s.rejectedGradients + 1 })) ∧
    ((s.receivedGradients.map Prod.fst).Nodup →
      ((receiveGradient sqrtFn s nodeId gradients
          metadata).2.receivedGradients.map Prod.fst).Nodup) := by
  constructor
  · intro h
    simp only [receiveGradient]
    split_ifs with g1 g2 g3
    · rfl
    · rfl
    · rfl
    · exfalso
      rcases h with h | h | h
      · simp only [Bool.not_eq_true', Bool.not_eq_false] at g1
        exact h (by simpa using g1)
      · have : alistGet s.receivedGradients nodeId = none := by
          cases hh : alistGet s.receivedGradients nodeId with
          | none => rfl
          | some _ => simp [hh] at g2
        exact (alistGet_eq_none_iff _ _).mp this h
      · have := validateGradients_eq_false_of_bad gradients h
        simp [this] at g3
  · intro hnd
    simp only [receiveGradient]
    split_ifs with g1 g2 g3
    · simpa using hnd
    · simpa using hnd
    · simpa using hnd
    · have hget : alistGet s.receivedGradients nodeId = none := by
        cases hh : alistGet s.receivedGradients nodeId with
        | none => rfl
        | some _ => simp [hh] at g2
      have hkeys : nodeId ∉ s.receivedGradients.map Prod.fst :=
        (alistGet_eq_none_iff _ _).mp hget
      have hnew : ∀ g : Grads,
          ((alistSet s.receivedGradients nodeId g).map Prod.fst).Nodup := by
        intro g
        rw [alistSet_of_get_none _ _ _ hget]
        simp [List.nodup_append, hnd, hkeys]
      cases hm : metadata with
      | none => simpa using hnew _
      | some m =>
        by_cases he : m.isEmpty <;> simp [he, hnew _]

/-- Witness for C1: a round expecting only worker A rejects a NaN-bearing
submission from A, rejects any submission from the unexpected worker B, and
keeps its received map duplicate-free. -/
theorem receive_gradient_rejects_witness :
    receiveGradient (fun q => q) { expectedNodes := ["A"] } "B"
        [("w", { shape := [1], data := [.finite 1] })] none =
      (false, { expectedNodes := ["A"], rejectedGradients := 1 }) ∧
    receiveGradient (fun q => q) { expectedNodes := ["A"] } "A"
        [("w", { shape := [1], data := [.nan] })] none =
      (false, { expectedNodes := ["A"], rejectedGradients := 1 }) ∧
    (((receiveGradient (fun q => q) { expectedNodes := ["A"] } "A"
        [("w", { shape := [1], data := [.finite 1] })]
        none).2.receivedGradients.map Prod.fst).Nodup) := by
  refine ⟨?_, ?_, ?_⟩
  · exact (receive_gradient_rejects_and_at_most_once (fun q => q)
      { expectedNodes := ["A"] } "B" _ none).1 (Or.inl (by decide))
  · exact (receive_gradient_rejects_and_at_most_once (fun q => q)
      { expectedNodes := ["A"] } "A" _ none).1
      (Or.inr (Or.inr ⟨("w", { shape := [1], data := [.nan] }), by simp,
        Or.inl (by rfl)⟩))
  · exact (receive_gradient_rejects_and_at_most_once (fun q => q)
      { expectedNodes := ["A"] } "A" _ none).2 (by simp)

/-- **C1 (counterexample).** Shape mismatches are *not* rejected at intake:
with expected per-parameter shapes assigning `[2]` to `"w"`, a submission
carrying `"w"` with shape `[3]` from an expected worker is accepted and
stored; no shape information is even available to `receive_gradient`. -/
theorem receive_gradient_accepts_shape_mismatch :
    (receiveGradient (fun q => q)
        { expectedNodes := ["A"], roundStartTime := some 0 } "A"
        [("w", { shape := [3], data := [.finite 1, .finite 1, .finite 1] })]
        none).1 = true ∧
    (receiveGradient (fun q => q)
        { expectedNodes := ["A"], roundStartTime := some 0 } "A"
        [("w", { shape := [3], data := [.finite 1, .finite 1, .finite 1] })]
        none).2.receivedGradients =
      [("A", [("w", { shape := [3],
                      data := [.finite 1, .finite 1, .finite 1] })])] ∧
    alistGet [("w", ([2] : List Nat))] "w" = some [2] ∧
    ([3] : List Nat) ≠ [2] := by
  exact ⟨rfl, rfl, rfl, by decide⟩

/-- **C3 (amended).** For every started round, `should_aggregate` follows
the claimed case analysis with the threshold
`t = int(|expected| · min_nodes_percentage)` — a *truncation*, not a
ceiling: all responded → ready; below `t` before the deadline → not ready;
at least `t` (but not all) at or past the deadline → ready with the partial
set; below `t` at or past the deadline → not ready with reason "timeout
with insufficient nodes"; and with exactly `t` received (not all), the
round is ready exactly when the deadline has passed. -/
theorem should_aggregate_case_analysis (s : AggState) (now startTime : ℚ)
    (hstart : s.roundStartTime = some startTime) :
    (s.receivedGradients.length = s.expectedNodes.length →
      shouldAggregate s now = (true, .allNodesResponded)) ∧
    (s.receivedGradients.length ≠ s.expectedNodes.length →
      (s.receivedGradients.length : ℤ) <
        pyInt ((s.expectedNodes.length : ℚ) * s.minNodesPercentage) →
      now - startTime < s.timeoutSeconds →
      (shouldAggregate s now).1 = false) ∧
    (s.receivedGradients.length ≠ s.expectedNodes.length →
      pyInt ((s.expectedNodes.length : ℚ) * s.minNodesPercentage) ≤
        (s.receivedGradients.length : ℤ) →
      s.timeoutSeconds ≤ now - startTime →
      shouldAggregate s now =
        (true, .timeoutReached s.receivedGradients.length
          s.expectedNodes.length)) ∧
    (s.receivedGradients.length ≠ s.expectedNodes.length →
      (s.receivedGradients.length : ℤ) <
        pyInt ((s.expectedNodes.length : ℚ) * s.minNodesPercentage) →
      s.timeoutSeconds ≤ now - startTime →
      shouldAggregate s now = (false, .timeoutInsufficientNodes
        s.receivedGradients.length
        (pyInt ((s.expectedNodes.length : ℚ) * s.minNodesPercentage)))) ∧
    (s.receivedGradients.length ≠ s.expectedNodes.length →
      (s.receivedGradients.length : ℤ) =
        pyInt ((s.expectedNodes.length : ℚ) * s.minNodesPercentage) →
      ((shouldAggregate s now).1 = true ↔
        s.timeoutSeconds ≤ now - startTime)) := by
  refine ⟨?_, ?_, ?_, ?_, ?_⟩
  · intro h
    simp [shouldAggregate, hstart, h]
  · intro hne h2 h3
    simp [shouldAggregate, hstart, hne, h2, not_le.mpr h3]
  · intro hne h2 h3
    simp [shouldAggregate, hstart, hne, not_lt.mpr h2, h3]
  · intro hne h2 h3
    simp [shouldAggregate, hstart, hne, h2, h3]
  · intro hne heq
    have hge : ¬ ((s.receivedGradients.length : ℤ) <
        pyInt ((s.expectedNodes.length : ℚ) * s.minNodesPercentage)) := by
      omega
    by_cases ht : s.timeoutSeconds ≤ now - startTime
    · simp [shouldAggregate, hstart, hne, hge, ht]
    · simp [shouldAggregate, hstart, hne, hge, ht, not_le.mp ht]

/-- Witness for C3: 3 expected workers, percentage 0.8 (threshold
`int(2.4) = 2`), timeout 30 s.  With 2 received the round is ready exactly
at the deadline; with 1 received it is not ready before the deadline. -/
theorem should_aggregate_case_analysis_witness :
    shouldAggregate
      { timeoutSeconds := 30, minNodesPercentage := 4/5,
        expectedNodes := ["A", "B", "C"],
        receivedGradients := [("A", []), ("B", [])],
        roundStartTime := some 0 } 30 = (true, .timeoutReached 2 3) ∧
    (shouldAggregate
      { timeoutSeconds := 30, minNodesPercentage := 4/5,
        expectedNodes := ["A", "B", "C"],
        receivedGradients := [("A", [])],
        roundStartTime := some 0 } 10).1 = false := by
  have hpy : pyInt (((["A", "B", "C"] : List String).length : ℚ) * (4/5)) = 2 := by
    rw [pyInt_eq_floor _ (by norm_num)]
    norm_num
  constructor
  · refine (should_aggregate_case_analysis _ 30 0 rfl).2.2.1 (by norm_num) ?_ (by norm_num)
    rw [hpy]
    norm_num
  · refine (should_aggregate_case_analysis _ 10 0 rfl).2.1 (by norm_num) ?_ (by norm_num)
    rw [hpy]
    norm_num

/-- **C3 (counterexample).** The threshold is not the claimed ceiling: with
3 expected workers and `min_nodes_percentage = 0.8` the ceiling is 3, yet
with only 2 gradients received at the deadline the source declares the
round ready ("timeout reached"), where the claim's case analysis (received
< ⌈2.4⌉ = 3 and elapsed ≥ timeout) requires *not ready* with reason
"timeout with insufficient nodes". -/
theorem should_aggregate_floor_threshold_refuted :
    (2 : ℤ) < ⌈(((["A", "B", "C"] : List String).length : ℚ)) * (4/5)⌉ ∧
    shouldAggregate
      { timeoutSeconds := 30, minNodesPercentage := 4/5,
        expectedNodes := ["A", "B", "C"],
        receivedGradients := [("A", []), ("B", [])],
        roundStartTime := some 0 } 30 = (true, .timeoutReached 2 3) := by
  constructor
  · have : ⌈(((["A", "B", "C"] : List String).length : ℚ)) * (4/5)⌉ = 3 := by
      rw [Int.ceil_eq_iff]
      norm_num
    omega
  · have hpy : pyInt (((["A", "B", "C"] : List String).length : ℚ) * (4/5)) = 2 := by
      rw [pyInt_eq_floor _ (by norm_num)]
      norm_num
    have hpy2 : pyInt ((12 : ℚ) / 5) = 2 := by
      rw [pyInt_eq_floor _ (by norm_num)]
      norm_num
    simp [shouldAggregate, hpy]
    norm_num [hpy2]

lemma calculateRewards_ok_inner {res : Except RewardError RewardDistribution}
    {d : RewardDistribution}
    (h : (match res with
      | .error e => Except.error e
      | .ok dist => if validateDistribution dist then Except.ok dist
          else Except.error RewardError.invalidDistribution) = Except.ok d) :
    res = .ok d ∧ validateDistribution d = true := by
  cases res with
  | error e => simp at h
  | ok dist =>
    by_cases hv : validateDistribution dist
    · simp only [hv, if_true] at h
      rw [Except.ok.injEq] at h
      subst h
      exact ⟨rfl, hv⟩
    · simp [hv] at h

lemma calculateProportional_fields (sid : String) (pool : ℤ)
    (cs : List (String × NodeContribution)) (d : RewardDistribution) :
    calculateProportional sid pool cs = .ok d →
    d.totalDistributed = sumTotalRewards d.nodeRewards ∧ d.totalPool = pool := by
  intro h
  simp only [calculateProportional] at h
  split_ifs at h
  all_goals rw [Except.ok.injEq] at h
  all_goals subst h
  all_goals exact ⟨rfl, rfl⟩

lemma calculateTiered_fields (sid : String) (pool : ℤ)
    (cs : List (String × NodeContribution)) (d : RewardDistribution) :
    calculateTiered sid pool cs = .ok d →
    d.totalDistributed = sumTotalRewards d.nodeRewards ∧ d.totalPool = pool := by
  intro h
  simp only [calculateTiered] at h
  split_ifs at h
  all_goals rw [Except.ok.injEq] at h
  all_goals subst h
  all_goals exact ⟨rfl, rfl⟩

lemma calculateWithMinimum_fields (sid : String) (pool : ℤ)
    (cs : List (String × NodeContribution)) (mp : ℚ) (d : RewardDistribution) :
    calculateWithMinimum sid pool cs mp = .ok d →
    d.totalDistributed = sumTotalRewards d.nodeRewards ∧ d.totalPool = pool := by
  intro h
  simp only [calculateWithMinimum] at h
  split_ifs at h
  all_goals rw [Except.ok.injEq] at h
  all_goals subst h
  all_goals exact ⟨rfl, rfl⟩

lemma calculateHybrid_fields (sid : String) (pool : ℤ)
    (cs : List (String × NodeContribution)) (d : RewardDistribution) :
    calculateHybrid sid pool cs = .ok d →
    d.totalDistributed = sumTotalRewards d.nodeRewards ∧ d.totalPool = pool := by
  intro h
  simp only [calculateHybrid] at h
  split_ifs at h
  all_goals rw [Except.ok.injEq] at h
  all_goals subst h
  all_goals exact ⟨rfl, rfl⟩

/-- **C2 (amended).** Every distribution returned by `calculate` (any
strategy) satisfies `Σ total_reward = total_distributed ≤ pool`, and has
passed `validate`; a distribution with `Σ total > pool` raises instead of
being returned.  The 1%-tolerance check compares `Σ total_reward` against
the recorded `total_distributed`, which are equal by construction, so it
never rejects anything and the shortfall against the *pool* is not bounded
(see the counterexample). -/
theorem reward_distribution_le_pool (sessionId : String) (totalPool : ℤ)
    (contributions : List (String × NodeContribution))
    (strategy : RewardStrategy) (d : RewardDistribution)
    (h : calculateRewards sessionId totalPool contributions strategy = .ok d) :
    sumTotalRewards d.nodeRewards = d.totalDistributed ∧
    d.totalDistributed ≤ d.totalPool ∧
    d.totalPool = totalPool ∧
    validateDistribution d = true := by
  unfold calculateRewards at h
  have hfields :
      d.totalDistributed = sumTotalRewards d.nodeRewards ∧ d.totalPool = totalPool := by
    cases strategy with
    | proportional =>
      obtain ⟨hc, _⟩ := calculateRewards_ok_inner h
      exact calculateProportional_fields _ _ _ _ hc
    | tiered =>
      obtain ⟨hc, _⟩ := calculateRewards_ok_inner h
      exact calculateTiered_fields _ _ _ _ hc
    | performanceBased =>
      obtain ⟨hc, _⟩ := calculateRewards_ok_inner h
      exact calculateWithMinimum_fields _ _ _ _ _ hc
    | hybrid =>
      obtain ⟨hc, _⟩ := calculateRewards_ok_inner h
      exact calculateHybrid_fields _ _ _ _ hc
  have hv : validateDistribution d = true := by
    cases strategy <;> exact (calculateRewards_ok_inner h).2
  have hle : d.totalDistributed ≤ d.totalPool := by
    by_contra hlt
    rw [not_le] at hlt
    have hfalse : validateDistribution d = false := by
      unfold validateDistribution
      by_cases c1 : |(sumTotalRewards d.nodeRewards : ℚ) - (d.totalDistributed : ℚ)| >
          (d.totalPool : ℚ) * (1/100)
      · rw [if_pos c1]
      · rw [if_neg c1, if_pos hlt]
    rw [hfalse] at hv
    exact absurd hv (by simp)
  exact ⟨hfields.1.symm, hle, hfields.2, hv⟩

/-- Witness for C2: proportional strategy, pool 1, one worker with final
score 1: the returned distribution sums to 1 = total_distributed ≤ pool. -/
theorem reward_distribution_le_pool_witness :
    sumTotalRewards
        ({ sessionId := "s", strategy := RewardStrategy.proportional,
           totalPool := 1, totalDistributed := 1,
           nodeRewards := [("A",
             { nodeId := "A", nodeAddress := "", contributionScore := 1,
               contributionPercentage := 100, baseReward := 1,
               bonusReward := 0, totalReward := 1 })],
           minReward := 1, maxReward := 1,
           avgReward := 1 } : RewardDistribution).nodeRewards =
      (1 : ℤ) ∧
    (1 : ℤ) ≤ 1 := by
  have hok : calculateRewards "s" 1 [("A", { nodeId := "A", finalScore := 1 })]
      .proportional = .ok
      { sessionId := "s", strategy := RewardStrategy.proportional,
        totalPool := 1, totalDistributed := 1,
        nodeRewards := [("A",
          { nodeId := "A", nodeAddress := "", contributionScore := 1,
            contributionPercentage := 100, baseReward := 1,
            bonusReward := 0, totalReward := 1 })],
        minReward := 1, maxReward := 1, avgReward := 1 } := by
    simp only [calculateRewards, calculateProportional, validateDistribution,
      sumTotalRewards, listMinZ, listMaxZ, listMeanZ, List.isEmpty,
      List.map, List.sum_cons, List.sum_nil, List.foldl]
    simp (disch := norm_num) only [pyInt_eq_floor]
    norm_num
  have h := reward_distribution_le_pool "s" 1
    [("A", { nodeId := "A", finalScore := 1 })] .proportional _ hok
  exact ⟨h.1, h.2.1⟩

/-- **C2 (counterexample).** The tiered strategy with a single worker
(final score 100, pool 1 000 000) *returns* a distribution — validation
passes — that hands out only the 85% base pool: the shortfall relative to
the pool is 0.15, far above the claimed 0.01 bound, because `validate`
compares the sum against the recorded `total_distributed` (always equal)
rather than against the pool. -/
theorem tiered_shortfall_exceeds_tolerance :
    (calculateRewards "s" 1000000
        [("A", { nodeId := "A", nodeAddress := "0xA", finalScore := 100 })]
        .tiered).toOption.map (fun d => sumTotalRewards d.nodeRewards) =
      some 850000 ∧
    (calculateRewards "s" 1000000
        [("A", { nodeId := "A", nodeAddress := "0xA", finalScore := 100 })]
        .tiered).toOption.map (fun d => d.totalPool) = some 1000000 ∧
    ((1000000 : ℚ) - 850000) / 1000000 > 1/100 := by
  refine ⟨?_, ?_, by norm_num⟩ <;>
  · simp only [calculateRewards, calculateTiered, sortDescBy, insertDescBy,
      validateDistribution, sumTotalRewards, listMinZ, listMaxZ, listMeanZ,
      List.enum, List.enumFrom, List.isEmpty, List.map, List.sum_cons,
      List.sum_nil, List.foldl]
    simp (disch := norm_num) only [pyInt_eq_floor]
    norm_num
    exact ⟨_, rfl, rfl⟩

lemma calculateContributionScore_preserves (s : SelectorState) (n : String) :
    (calculateContributionScore s n).nodeStates = s.nodeStates ∧
    (calculateContributionScore s n).quarantinedNodes = s.quarantinedNodes := by
  unfold calculateContributionScore
  exact ⟨rfl, rfl⟩

/-- **C7 (amended).** With quarantine enabled, recording a *failed*
contribution quarantines a registered, not-already-quarantined worker
exactly when its cumulative totals — not a rolling window — reach
`quarantine_threshold` with the cumulative failure fraction (including the
new failure) above 0.7, and the quarantine expiry is then
`now + quarantine_duration`; a successful contribution never quarantines.
In particular, after 4 successes and 4 failures, 4 further failures leave
the ratio at 8/12 ≤ 0.7 (see the counterexample); 6 further consecutive
failures are needed (10/14 > 0.7). -/
theorem quarantine_trigger_characterization
    (s : SelectorState) (nodeId : String) (ct wt now : ℚ)
    (c : ContribRecord) (st : NodeState)
    (hc : alistGet s.nodeContributions nodeId = some c)
    (hst : alistGet s.nodeStates nodeId = some st)
    (hstq : st ≠ NodeState.quarantined)
    (hq : s.enableQuarantine = true) :
    (alistGet (recordContribution s nodeId ct wt false now).nodeStates nodeId =
        some NodeState.quarantined ↔
      (s.quarantineThreshold ≤
          c.successfulContributions + (c.failedContributions + 1) ∧
        (((c.failedContributions + 1 : ℕ) : ℚ) /
          ((c.successfulContributions + (c.failedContributions + 1) : ℕ) : ℚ)
            > 7/10))) ∧
    (s.quarantineThreshold ≤
        c.successfulContributions + (c.failedContributions + 1) →
      ((c.failedContributions + 1 : ℕ) : ℚ) /
        ((c.successfulContributions + (c.failedContributions + 1) : ℕ) : ℚ)
          > 7/10 →
      alistGet (recordContribution s nodeId ct wt false now).quarantinedNodes
        nodeId = some (now + s.quarantineDuration)) ∧
    (alistGet (recordContribution s nodeId ct wt true now).nodeStates nodeId ≠
      some NodeState.quarantined) := by
  refine ⟨?_, ?_, ?_⟩
  · simp only [recordContribution, hc, Option.isSome_some, if_true,
      Option.getD_some, hq, Bool.false_eq_true, if_false]
    by_cases h1 : s.quarantineThreshold ≤
        c.successfulContributions + (c.failedContributions + 1)
    · by_cases h2 : ((c.failedContributions + 1 : ℕ) : ℚ) /
          ((c.successfulContributions + (c.failedContributions + 1) : ℕ) : ℚ)
            > 7/10
      · rw [if_pos h1, if_pos h2]
        simp only [quarantineNode, (calculateContributionScore_preserves _ _).1,
          alistGet_alistSet_self, true_iff]
        push_cast at h2 ⊢
        exact ⟨h1, h2⟩
      · rw [if_pos h1, if_neg h2]
        simp [(calculateContributionScore_preserves _ _).1, hst, hstq]
        intro _
        push_cast at h2 ⊢
        exact not_lt.mp h2
    · rw [if_neg h1]
      simp [(calculateContributionScore_preserves _ _).1, hst, h1, hstq]
  · intro h1 h2
    simp only [recordContribution, hc, Option.isSome_some, if_true,
      Option.getD_some, hq, Bool.false_eq_true, if_false]
    rw [if_pos h1, if_pos h2]
    simp [quarantineNode, (calculateContributionScore_preserves _ _).2,
      alistGet_alistSet_self]
  · simp only [recordContribution, hc, Option.isSome_some, if_true,
      Option.getD_some, eq_self_iff_true]
    cases hp : alistGet s.probationProgress nodeId with
    | none =>
      simp [hp, (calculateContributionScore_preserves _ _).1, hst, hstq]
    | some progress =>
      by_cases hps : s.probationSteps ≤ progress + 1
      · simp [hp, hps, (calculateContributionScore_preserves _ _).1,
          alistGet_alistSet_self]
      · simp [hp, hps, (calculateContributionScore_preserves _ _).1, hst, hstq]


/-- Witness for C7: with 4 successes and 8 failures a further failure
(9/13 ≤ 0.7) does not quarantine; with 4 successes and 9 failures a
further failure (10/14 > 0.7) quarantines with expiry `now + 300`; a
success never quarantines. -/
theorem quarantine_trigger_characterization_witness :
    (alistGet (recordContribution
        { nodeContributions := [("X",
            { successfulContributions := 4, failedContributions := 8 })],
          nodeStates := [("X", NodeState.active)] } "X" 0 0 false 0).nodeStates
        "X" = some NodeState.quarantined ↔
      (5 ≤ 13 ∧ ((9 : ℕ) : ℚ) / ((13 : ℕ) : ℚ) > 7/10)) ∧
    alistGet (recordContribution
        { nodeContributions := [("X",
            { successfulContributions := 4, failedContributions := 9 })],
          nodeStates := [("X", NodeState.active)] } "X" 0 0 false
        7).quarantinedNodes "X" = some (7 + 300) ∧
    alistGet (recordContribution
        { nodeContributions := [("X",
            { successfulContributions := 4, failedContributions := 8 })],
          nodeStates := [("X", NodeState.active)] } "X" 0 0 true 0).nodeStates
        "X" ≠ some NodeState.quarantined := by
  refine ⟨?_, ?_, ?_⟩
  · exact (quarantine_trigger_characterization
      { nodeContributions := [("X",
          { successfulContributions := 4, failedContributions := 8 })],
        nodeStates := [("X", NodeState.active)] } "X" 0 0 0
      { successfulContributions := 4, failedContributions := 8 }
      NodeState.active (by rfl) (by rfl) (by simp) rfl).1
  · exact (quarantine_trigger_characterization
      { nodeContributions := [("X",
          { successfulContributions := 4, failedContributions := 9 })],
        nodeStates := [("X", NodeState.active)] } "X" 0 0 7
      { successfulContributions := 4, failedContributions := 9 }
      NodeState.active (by rfl) (by rfl) (by simp) rfl).2.1 (by norm_num)
      (by push_cast; norm_num)
  · exact (quarantine_trigger_characterization
      { nodeContributions := [("X",
          { successfulContributions := 4, failedContributions := 8 })],
        nodeStates := [("X", NodeState.active)] } "X" 0 0 0
      { successfulContributions := 4, failedContributions := 8 }
      NodeState.active (by rfl) (by rfl) (by simp) rfl).2.2


lemma xState_step_success (a b : ℕ) (sc : ℚ) :
    recordContribution (xState a b sc) "X" 0 0 true 0 =
      xState (a + 1) b (((a + 1 : ℕ) : ℚ) / ((a + 1 + b : ℕ) : ℚ) * 50) := by
  simp only [recordContribution, xState, alistGet, alistSet,
    calculateContributionScore]
  norm_num

lemma xState4_step_failure (b : ℕ) (sc : ℚ) (hb : b ≤ 7) :
    recordContribution (xState 4 b sc) "X" 0 0 false 0 =
      xState 4 (b + 1) ((4 : ℚ) / ((4 + (b + 1) : ℕ) : ℚ) * 50) := by
  have hb' : ((b : ℚ)) ≤ 7 := by exact_mod_cast hb
  have hnt : ¬ ((7 : ℚ)/10 < ((b : ℚ) + 1) / (4 + ((b : ℚ) + 1))) := by
    rw [not_lt, div_le_div_iff₀ (by positivity) (by norm_num)]
    linarith
  simp only [recordContribution, xState, alistGet, alistSet,
    calculateContributionScore]
  norm_num [hnt, alistGet, alistSet]

/-- **C7 (counterexample).** Worker X records 4 successes, 4 failures and
then 4 more consecutive failures (zero compute/waiting time throughout):
contrary to the claim, X is still `active` and not quarantined, because the
cumulative failure ratio is 8/12 ≤ 0.7. -/
theorem quarantine_after_four_more_failures_refuted :
    alistGet (runContributions { } "X"
        (List.replicate 4 true ++ List.replicate 8 false) 0).nodeStates "X" =
      some NodeState.active ∧
    alistGet (runContributions { } "X"
        (List.replicate 4 true ++ List.replicate 8 false) 0).quarantinedNodes
      "X" = none ∧
    ¬ ((8 : ℚ) / 12 > 7/10) := by
  have h0 : recordContribution ({ } : SelectorState) "X" 0 0 true 0 =
      xState 1 0 50 := by
    norm_num [recordContribution, registerNode, xState, alistGet, alistSet,
      calculateContributionScore]
  refine ⟨?_, ?_, by norm_num⟩ <;>
  · simp only [runContributions, List.replicate, List.cons_append,
      List.nil_append, List.foldl]
    rw [h0, xState_step_success 1 0, xState_step_success 2 0,
      xState_step_success 3 0,
      xState4_step_failure 0 _ (by norm_num),
      xState4_step_failure 1 _ (by norm_num),
      xState4_step_failure 2 _ (by norm_num),
      xState4_step_failure 3 _ (by norm_num),
      xState4_step_failure 4 _ (by norm_num),
      xState4_step_failure 5 _ (by norm_num),
      xState4_step_failure 6 _ (by norm_num),
      xState4_step_failure 7 _ (by norm_num)]
    rfl

lemma alistGet_of_mem_nodup {α : Type} (l : List (String × α)) (k : String)
    (v : α) (hnd : (l.map Prod.fst).Nodup) (hm : (k, v) ∈ l) :
    alistGet l k = some v := by
  induction l with
  | nil => simp at hm
  | cons hd tl ih =>
    rcases List.mem_cons.mp hm with rfl | hm'
    · simp [alistGet]
    · have hk : hd.1 ≠ k := by
        intro hk
        have : k ∈ tl.map Prod.fst := List.mem_map.mpr ⟨(k, v), hm', rfl⟩
        rw [List.map_cons, List.nodup_cons, hk] at hnd
        exact hnd.1 this
      simp only [alistGet, beq_iff_eq, hk, if_false]
      exact ih (by simpa using (List.nodup_cons.mp (by simpa using hnd)).2) hm'

lemma alistGet_some_mem {α : Type} (l : List (String × α)) (k : String)
    (v : α) (h : alistGet l k = some v) : (k, v) ∈ l := by
  induction l with
  | nil => simp [alistGet] at h
  | cons hd tl ih =>
    by_cases hk : hd.1 = k
    · simp only [alistGet, beq_iff_eq, hk, if_true, Option.some.injEq] at h
      subst h
      exact List.mem_cons.mpr (Or.inl (by rw [← hk]))
    · simp only [alistGet, beq_iff_eq, hk, if_false] at h
      exact List.mem_cons.mpr (Or.inr (ih h))

lemma alistGet_alistRemove_ne {α : Type} (l : List (String × α))
    (k k' : String) (hne : k' ≠ k) :
    alistGet (alistRemove l k) k' = alistGet l k' := by
  induction l with
  | nil => rfl
  | cons hd tl ih =>
    have hne' : ¬ k = k' := fun hh => hne hh.symm
    by_cases hk : hd.1 = k
    · simp only [alistRemove, List.filter_cons] at ih ⊢
      simp [hk, alistGet, hne', ih]
    · simp only [alistRemove, List.filter_cons] at ih ⊢
      by_cases hk2 : hd.1 = k'
      · simp [hk, alistGet, hk2, hne, hne']
      · simp [hk, alistGet, hk2, ih]

lemma alistGet_alistRemove_self {α : Type} (l : List (String × α))
    (k : String) : alistGet (alistRemove l k) k = none := by
  induction l with
  | nil => rfl
  | cons hd tl ih =>
    simp only [alistRemove, List.filter_cons] at ih ⊢
    by_cases hk : hd.1 = k
    · simp [hk, ih]
    · simp [hk, alistGet, ih]

lemma foldl_releaseNode_preserves (rel : List String) (s : SelectorState)
    (node : String) (hn : node ∉ rel) :
    alistGet (rel.foldl releaseNode s).nodeStates node =
      alistGet s.nodeStates node ∧
    alistGet (rel.foldl releaseNode s).quarantinedNodes node =
      alistGet s.quarantinedNodes node := by
  induction rel generalizing s with
  | nil => exact ⟨rfl, rfl⟩
  | cons m rest ih =>
    have hne : node ≠ m := fun hh => hn (hh ▸ List.mem_cons_self m rest)
    have hrest : node ∉ rest := fun hh => hn (List.mem_cons_of_mem m hh)
    rw [List.foldl_cons]
    refine ⟨?_, ?_⟩
    · rw [(ih (releaseNode s m) hrest).1]
      simp [releaseNode, alistGet_alistSet_ne _ _ _ _ hne]
    · rw [(ih (releaseNode s m) hrest).2]
      simp [releaseNode, alistGet_alistRemove_ne _ _ _ hne]

lemma foldl_releaseNode_probation (rel : List String) (s : SelectorState)
    (node : String) (hnd : rel.Nodup) (hn : node ∈ rel) :
    alistGet (rel.foldl releaseNode s).nodeStates node =
      some NodeState.probation ∧
    alistGet (rel.foldl releaseNode s).quarantinedNodes node = none := by
  induction rel generalizing s with
  | nil => simp at hn
  | cons m rest ih =>
    rw [List.foldl_cons]
    rcases List.mem_cons.mp hn with rfl | hmem
    · have hrest : node ∉ rest := (List.nodup_cons.mp hnd).1
      refine ⟨?_, ?_⟩
      · rw [(foldl_releaseNode_preserves rest _ node hrest).1]
        simp [releaseNode, alistGet_alistSet_self]
      · rw [(foldl_releaseNode_preserves rest _ node hrest).2]
        simp [releaseNode, alistGet_alistRemove_self]
    · exact ih (releaseNode s m) (List.nodup_cons.mp hnd).2 hmem

lemma checkQuarantineExpiry_keeps_quarantined (s : SelectorState) (now : ℚ)
    (node : String) (expiry : ℚ)
    (hnd : (s.quarantinedNodes.map Prod.fst).Nodup)
    (hq : alistGet s.quarantinedNodes node = some expiry) (hfut : now < expiry) :
    alistGet (checkQuarantineExpiry s now).nodeStates node =
      alistGet s.nodeStates node := by
  unfold checkQuarantineExpiry
  refine (foldl_releaseNode_preserves _ _ _ ?_).1
  intro hmem
  rcases List.mem_map.mp hmem with ⟨p, hp, hfst⟩
  have hpl : p ∈ s.quarantinedNodes := List.mem_of_mem_filter hp
  have hcond : now ≥ p.2 := by simpa using List.of_mem_filter hp
  have hpe : alistGet s.quarantinedNodes node = some p.2 := by
    have : (node, p.2) ∈ s.quarantinedNodes := by
      rw [← hfst]
      exact hpl
    exact alistGet_of_mem_nodup _ _ _ hnd this
  rw [hq] at hpe
  rw [Option.some.injEq] at hpe
  rw [hpe] at hfut
  exact absurd hcond (not_le.mpr hfut)

/-- **C6.** No worker whose state is quarantined with an expiry still in
the future appears in the set returned by `select_nodes`, under every
selection strategy and any selector state with duplicate-free quarantine
keys; and once the expiry has passed, the expiry check moves the worker to
probation (making it selectable again). -/
theorem quarantined_node_never_selected (sqrtFn : ℚ → ℚ)
    (monitor : List (String × ConnectionProfile)) (s : SelectorState)
    (availableNodes? : Option (List String)) (now later : ℚ) (node : String)
    (expiry : ℚ)
    (hnd : (s.quarantinedNodes.map Prod.fst).Nodup)
    (hq : alistGet s.quarantinedNodes node = some expiry)
    (hst : alistGet s.nodeStates node = some NodeState.quarantined) :
    (now < expiry →
      node ∉ (selectNodes sqrtFn monitor s availableNodes? now).1) ∧
    (expiry ≤ later →
      alistGet (checkQuarantineExpiry s later).nodeStates node =
        some NodeState.probation ∧
      alistGet (checkQuarantineExpiry s later).quarantinedNodes node = none) := by
  constructor
  · intro hfut hmem
    have hkeep :
        alistGet (checkQuarantineExpiry s now).nodeStates node =
          some NodeState.quarantined := by
      rw [checkQuarantineExpiry_keeps_quarantined s now node expiry hnd hq hfut]
      exact hst
    have hfiltered : ∀ avail : List String,
        node ∉ List.filter
          (fun n => decide (alistGet (checkQuarantineExpiry s now).nodeStates n ≠
            some NodeState.quarantined)) avail := by
      intro avail hmm
      have := (List.mem_filter.mp hmm).2
      rw [hkeep] at this
      simp at this
    simp only [selectNodes] at hmem
    rw [apply_ite Prod.fst] at hmem
    split at hmem
    · simp at hmem
    · dsimp only at hmem
      split at hmem
      · exact hfiltered _ hmem
      · exact hfiltered _ (List.mem_filter.mp hmem).1
      · rcases List.mem_map.mp (by exact hmem) with ⟨p, hp, hfst⟩
        have hsorted := List.mem_of_mem_take hp
        have hcomb := mem_sortDescBy _ _ _ hsorted
        rcases List.mem_map.mp hcomb with ⟨m, hm, hpm⟩
        have hnode : node = m := by rw [← hfst, ← hpm]
        exact hfiltered _ (hnode ▸ hm)
      · simp only [selectAdaptiveThreshold] at hmem
        split_ifs at hmem
        · exact hfiltered _ hmem
        · exact hfiltered _ (List.mem_filter.mp hmem).1
      · exact hfiltered _ (List.mem_filter.mp hmem).1
  · intro hpast
    unfold checkQuarantineExpiry
    have hrel : node ∈ (List.filter (fun p => decide (later ≥ p.2))
        s.quarantinedNodes).map Prod.fst := by
      refine List.mem_map.mpr ⟨(node, expiry), ?_, rfl⟩
      refine List.mem_filter.mpr ⟨alistGet_some_mem _ _ _ hq, by simpa using hpast⟩
    have hrelnd : ((List.filter (fun p => decide (later ≥ p.2))
        s.quarantinedNodes).map Prod.fst).Nodup := by
      refine List.Nodup.sublist ?_ hnd
      exact List.Sublist.map Prod.fst (List.filter_sublist _)
    exact foldl_releaseNode_probation _ s node hrelnd hrel

theorem quarantined_node_never_selected_witness :
    ("X" ∉ (selectNodes (fun q => q) []
        { quarantinedNodes := [("X", (100 : ℚ))],
          nodeStates := [("X", NodeState.quarantined)] }
        (some ["X"]) 50).1) ∧
    alistGet (checkQuarantineExpiry
        { quarantinedNodes := [("X", (100 : ℚ))],
          nodeStates := [("X", NodeState.quarantined)] } 200).nodeStates "X" =
      some NodeState.probation := by
  have h := quarantined_node_never_selected (fun q => q) []
      { quarantinedNodes := [("X", (100 : ℚ))],
        nodeStates := [("X", NodeState.quarantined)] }
      (some ["X"]) 50 200 "X" 100 (by simp) (by rfl) (by rfl)
  exact ⟨h.1 (by norm_num), (h.2 (by norm_num)).1⟩

lemma runHysteresis_cons (p : ConnectionProfile) (a : ConnectionQuality)
    (l : List ConnectionQuality) :
    runHysteresis p (a :: l) = runHysteresis (applyHysteresis p a).2 l := rfl

lemma applyHysteresis_single_stable (p : ConnectionProfile)
    (q : ConnectionQuality) (hT : 2 ≤ p.qualityChangeThreshold)
    (hpend : p.pendingQualityChange = none) :
    (applyHysteresis p q).1 = false ∧
    (applyHysteresis p q).2.currentQuality = p.currentQuality := by
  by_cases hcur : q = p.currentQuality
  · simp [applyHysteresis, hcur]
  · have hcont : ¬ p.pendingQualityChange = some q := by
      rw [hpend]
      simp
    have h1T : ¬ (1 ≥ p.qualityChangeThreshold) := by omega
    simp [applyHysteresis, hcur, hcont, h1T]

lemma runHysteresis_replicate_current (n : ℕ) :
    ∀ (p : ConnectionProfile) (b : ConnectionQuality), p.currentQuality = b →
    (runHysteresis p (List.replicate n b)).currentQuality = b := by
  induction n with
  | zero =>
    intro p b hb
    exact hb
  | succ m ih =>
    intro p b hb
    rw [List.replicate_succ, runHysteresis_cons]
    have hstep : (applyHysteresis p b).2 =
        { p with pendingQualityChange := none, pendingChangeCount := 0 } := by
      simp [applyHysteresis, hb]
    rw [hstep]
    exact ih _ b hb

lemma hysteresis_change_shape (l : List ConnectionQuality) :
    ∀ (p : ConnectionProfile), 2 ≤ p.qualityChangeThreshold →
    (runHysteresis p l).currentQuality ≠ p.currentQuality →
    (∃ Q, p.pendingQualityChange = some Q ∧
      l.take (p.qualityChangeThreshold - p.pendingChangeCount) =
        List.replicate (p.qualityChangeThreshold - p.pendingChangeCount) Q) ∨
    (∃ pre Q post,
      l = pre ++ List.replicate p.qualityChangeThreshold Q ++ post) := by
  induction l with
  | nil =>
    intro p _ hch
    exact absurd rfl hch
  | cons a rest ih =>
    intro p hT hch
    rw [runHysteresis_cons] at hch
    by_cases hcur : a = p.currentQuality
    · have hstep : (applyHysteresis p a).2 =
          { p with pendingQualityChange := none, pendingChangeCount := 0 } := by
        simp [applyHysteresis, hcur]
      rw [hstep] at hch
      have hih := ih
        { p with pendingQualityChange := none, pendingChangeCount := 0 } hT hch
      rcases hih with ⟨Q, hQ, _⟩ | ⟨pre, Q, post, hdec⟩
      · exact Option.noConfusion
          (show (Option.none : Option ConnectionQuality) = some Q from hQ)
      · exact Or.inr ⟨a :: pre, Q, post, by rw [hdec]; rfl⟩
    · by_cases hcont : p.pendingQualityChange = some a
      · by_cases hthr : p.pendingChangeCount + 1 ≥ p.qualityChangeThreshold
        · refine Or.inl ⟨a, hcont, ?_⟩
          rcases Nat.le_one_iff_eq_zero_or_eq_one.mp
              (show p.qualityChangeThreshold - p.pendingChangeCount ≤ 1 by
                omega) with h0 | h1
          · rw [h0]
            rfl
          · rw [h1]
            rfl
        · have hstep : (applyHysteresis p a).2 =
              { p with pendingChangeCount := p.pendingChangeCount + 1 } := by
            simp [applyHysteresis, hcur, hcont, hthr]
          rw [hstep] at hch
          have hih := ih
              { p with pendingChangeCount := p.pendingChangeCount + 1 } hT hch
          rcases hih with ⟨Q, hQ, htake⟩ | ⟨pre, Q, post, hdec⟩
          · left
            have hQ' : p.pendingQualityChange = some Q := hQ
            have haQ : Q = a := by
              rw [hcont] at hQ'
              exact (Option.some.injEq _ _ ▸ hQ').symm
            have htake' : rest.take
                (p.qualityChangeThreshold - (p.pendingChangeCount + 1)) =
                List.replicate
                  (p.qualityChangeThreshold - (p.pendingChangeCount + 1)) Q :=
              htake
            refine ⟨Q, hQ', ?_⟩
            have harith : p.qualityChangeThreshold - p.pendingChangeCount =
                (p.qualityChangeThreshold - (p.pendingChangeCount + 1)) + 1 := by
              omega
            rw [harith, List.take_succ_cons, List.replicate_succ, htake', haQ]
          · exact Or.inr ⟨a :: pre, Q, post, by rw [hdec]; rfl⟩
      · have h1T : ¬ (1 ≥ p.qualityChangeThreshold) := by omega
        have hstep : (applyHysteresis p a).2 =
            { p with pendingQualityChange := some a,
                     pendingChangeCount := 1 } := by
          simp [applyHysteresis, hcur, hcont, h1T]
        rw [hstep] at hch
        have hih := ih
          { p with pendingQualityChange := some a, pendingChangeCount := 1 }
          hT hch
        rcases hih with ⟨Q, hQ, htake⟩ | ⟨pre, Q, post, hdec⟩
        · have haQ : Q = a := by
            have hQ' : some a = some Q := hQ
            exact (Option.some.injEq _ _ ▸ hQ').symm
          have htake' : rest.take (p.qualityChangeThreshold - 1) =
              List.replicate (p.qualityChangeThreshold - 1) a := by
            rw [← haQ]
            exact htake
          refine Or.inr ⟨[], a, rest.drop (p.qualityChangeThreshold - 1), ?_⟩
          have hT1 : p.qualityChangeThreshold - 1 + 1 =
              p.qualityChangeThreshold := by omega
          show a :: rest = [] ++ List.replicate p.qualityChangeThreshold a ++
            rest.drop (p.qualityChangeThreshold - 1)
          rw [List.nil_append, ← hT1, List.replicate_succ, List.cons_append]
          conv_lhs => rw [← List.take_append_drop
            (p.qualityChangeThreshold - 1) rest]
          rw [htake', Nat.add_sub_cancel]
        · exact Or.inr ⟨a :: pre, Q, post, by rw [hdec]; rfl⟩

/-- **C5.** Quality-band hysteresis: from any profile with no pending band
change and a change threshold of at least 2 (default 3), (i) a single
hysteresis evaluation never changes the current band and reports no change;
(ii) an evaluation proposing the current band resets the pending streak;
(iii) over any sequence of classifier proposals, the current band changes
only if the sequence contains `quality_change_threshold` consecutive
identical proposals; (iv) one deviating proposal followed by
`quality_change_threshold - 1` proposals of the current band leaves the
band unchanged. -/
theorem quality_band_hysteresis (p : ConnectionProfile)
    (l : List ConnectionQuality) (q : ConnectionQuality)
    (hT : 2 ≤ p.qualityChangeThreshold)
    (hpend : p.pendingQualityChange = none) :
    ((applyHysteresis p q).1 = false ∧
      (applyHysteresis p q).2.currentQuality = p.currentQuality) ∧
    ((applyHysteresis p p.currentQuality).2.pendingQualityChange = none ∧
      (applyHysteresis p p.currentQuality).2.pendingChangeCount = 0) ∧
    ((runHysteresis p l).currentQuality ≠ p.currentQuality →
      ∃ pre Q post,
        l = pre ++ List.replicate p.qualityChangeThreshold Q ++ post) ∧
    (runHysteresis p (q :: List.replicate (p.qualityChangeThreshold - 1)
        p.currentQuality)).currentQuality = p.currentQuality := by
  refine ⟨applyHysteresis_single_stable p q hT hpend, ⟨?_, ?_⟩, ?_, ?_⟩
  · simp [applyHysteresis]
  · simp [applyHysteresis]
  · intro hch
    rcases hysteresis_change_shape l p hT hch with ⟨Q, hQ, _⟩ | h
    · rw [hpend] at hQ
      exact Option.noConfusion hQ
    · exact h
  · rw [runHysteresis_cons]
    exact runHysteresis_replicate_current _ _ _
      (applyHysteresis_single_stable p q hT hpend).2

theorem quality_band_hysteresis_witness :
    ∃ pre Q post,
      [ConnectionQuality.critical, ConnectionQuality.critical,
        ConnectionQuality.critical] = pre ++
        List.replicate ({ } : ConnectionProfile).qualityChangeThreshold Q ++
        post :=
  (quality_band_hysteresis { } [ConnectionQuality.critical,
      ConnectionQuality.critical, ConnectionQuality.critical]
      ConnectionQuality.critical (by decide) rfl).2.2.1 (by decide)
